import Mathlib

/-!
Verification development for `generate_dashboard.py`, a report renderer that
loads a JSON test report, substitutes its fields into a fixed HTML template
(an f-string), writes the result to `jira-test-dashboard.html`, and hands the
absolute path of that file to a browser-launch collaborator.

The embedding below follows the source:
* `JValue` models the JSON documents produced by `json.load`.
* `JValue.pylookup` models Python subscription `d[k]`: `KeyError` when the key
  is absent from a dict, `TypeError` when subscripting a non-dict by a string.
* `jsonDumps` models `json.dumps` with its default settings (separators
  `", "`/`": "`, `ensure_ascii=True`).
* `pyStr` models the `str()` conversion an f-string applies to a substituted
  value.
* `htmlTemplate` is the literal f-string of the source (lines 13-451), split
  into its literal chunks and substitution points, in source order.
* `create_html_dashboard` performs the field lookups of the f-string in the
  order Python evaluates them (left to right, first occurrence) and builds the
  rendered string; file I/O is modelled separately by `dashboardRun`.
* The chart logic embedded in the emitted `<script>` block (bar labels and
  the category radar aggregation) is modelled by `barLabel`, `updateCat`,
  `buildCategories`, `jsObjectKeys`, `categoryData`, `toFixed1`, translated
  from the JavaScript in the template, including the `Object.keys`
  enumeration order (array-index-like keys first).  The viewer's IEEE-754
  double arithmetic is not modelled: `toFixed1` is its exact-rational
  reference, used only where the two provably coincide.
-/

/-- JSON values as produced by `json.load` for the report documents this
program consumes (the schema uses only integers, strings, arrays and
objects; object key order is insertion order, and keys are unique). -/
inductive JValue where
  | jnum (n : Int)
  | jstr (s : String)
  | jarr (elems : List JValue)
  | jobj (fields : List (String × JValue))

/-- Errors a run can raise: `KeyError`-style missing key, `TypeError`-style
subscription of a non-dict; `malformedInput` models a `json.load` parse
failure and `ioError` a failed read of the input file. -/
inductive RunError where
  | missingField (key : String)
  | typeError
  | malformedInput
  | ioError
deriving DecidableEq, Repr

/-- Python subscription `v[k]` for a string key: the value under `k` if `v`
is a dict containing `k`, `KeyError` if `v` is a dict lacking `k`,
`TypeError` otherwise. -/
def JValue.pylookup (v : JValue) (k : String) : Except RunError JValue :=
  match v with
  | .jobj fields =>
    match fields.lookup k with
    | some x => .ok x
    | none => .error (.missingField k)
  | _ => .error .typeError

/-- Four-digit lowercase hexadecimal, as in `json.dumps` unicode escapes. -/
def hex4 (n : Nat) : String :=
  String.mk [Nat.digitChar (n / 4096 % 16), Nat.digitChar (n / 256 % 16),
    Nat.digitChar (n / 16 % 16), Nat.digitChar (n % 16)]

/-- Escaping of one character inside a JSON string literal, following
CPython's `json` encoder with `ensure_ascii=True`: printable ASCII other
than `"` and backslash is kept; the two-character escapes `\"`, `\\`, `\n`,
`\r`, `\t`, `\b`, `\f` are used where they exist; every other character is
emitted as `\uXXXX`, using a surrogate pair above U+FFFF. -/
def jsonEscapeChar (c : Char) : String :=
  if c = '"' then "\\\""
  else if c = '\\' then "\\\\"
  else if c = '\n' then "\\n"
  else if c = '\r' then "\\r"
  else if c = '\t' then "\\t"
  else if c = Char.ofNat 8 then "\\b"
  else if c = Char.ofNat 12 then "\\f"
  else if 0x20 ≤ c.toNat ∧ c.toNat ≤ 0x7e then String.singleton c
  else if c.toNat ≤ 0xffff then "\\u" ++ hex4 c.toNat
  else
    "\\u" ++ hex4 (0xd800 + (c.toNat - 0x10000) / 0x400) ++
    "\\u" ++ hex4 (0xdc00 + (c.toNat - 0x10000) % 0x400)

/-- Body of a JSON string literal: every character escaped per
`jsonEscapeChar`. -/
def jsonEscapeString (s : String) : String :=
  s.data.foldr (fun c acc => jsonEscapeChar c ++ acc) ""

mutual
/-- `json.dumps` with default settings on a `JValue`. -/
def jsonDumps : JValue → String
  | .jnum n => toString n
  | .jstr s => "\"" ++ jsonEscapeString s ++ "\""
  | .jarr elems => "[" ++ jsonDumpsList elems ++ "]"
  | .jobj fields => "\x7b" ++ jsonDumpsFields fields ++ "\x7d"

/-- Array elements joined by `", "`. -/
def jsonDumpsList : List JValue → String
  | [] => ""
  | [v] => jsonDumps v
  | v :: rest => jsonDumps v ++ ", " ++ jsonDumpsList rest

/-- Object entries `"key": value` joined by `", "`. -/
def jsonDumpsFields : List (String × JValue) → String
  | [] => ""
  | [(k, v)] => "\"" ++ jsonEscapeString k ++ "\": " ++ jsonDumps v
  | (k, v) :: rest =>
    "\"" ++ jsonEscapeString k ++ "\": " ++ jsonDumps v ++ ", " ++
    jsonDumpsFields rest
end

mutual
/-- Python `repr` of a JSON-shaped value, as far as this program can ever
need it: numbers and containers print as in Python; strings print
single-quoted with backslash and quote escaped.  (The template only ever
substitutes integers and strings under the §3 schema, so the container and
string cases are dead code for every claim; they are included to keep
`pyStr` total.) -/
def pyRepr : JValue → String
  | .jnum n => toString n
  | .jstr s =>
    "\x27" ++ s.data.foldr (fun c acc =>
      (if c = '\\' then "\\\\" else if c = '\x27' then "\\\x27"
       else String.singleton c) ++ acc) "" ++ "\x27"
  | .jarr elems => "[" ++ pyReprList elems ++ "]"
  | .jobj fields => "\x7b" ++ pyReprFields fields ++ "\x7d"

/-- List elements of a `repr`, joined by `", "`. -/
def pyReprList : List JValue → String
  | [] => ""
  | [v] => pyRepr v
  | v :: rest => pyRepr v ++ ", " ++ pyReprList rest

/-- Dict entries of a `repr`, joined by `", "`. -/
def pyReprFields : List (String × JValue) → String
  | [] => ""
  | [(k, v)] => pyRepr (.jstr k) ++ ": " ++ pyRepr v
  | (k, v) :: rest => pyRepr (.jstr k) ++ ": " ++ pyRepr v ++ ", " ++
    pyReprFields rest
end

/-- `str()` as applied by an f-string substitution: integers in decimal,
strings verbatim, containers via `repr`. -/
def pyStr : JValue → String
  | .jnum n => toString n
  | .jstr s => s
  | v => pyRepr v

/-- Concatenation of the chunks of an f-string: its literal segments and the
stringified substituted values, in order. -/
def concatChunks : List String → String
  | [] => ""
  | c :: rest => c ++ concatChunks rest
def htmlTemplate (totalTests totalSuites totalPassed totalFailed successRate sqlInjectionVulnerabilities missingSecurityHeaders sessionTokenIssues colorContrastViolations unlabeledFormInputs ariaCompliance concurrentUserFailures clsScore previousTestCount newTestCount authenticationFailures functionalFailures suitesJson : String) : String :=
  concatChunks [
    "<!DOCTYPE html>\n",
    "<html lang=\"en\">\n",
    "<head>\n",
    "    <meta charset=\"UTF-8\">\n",
    "    <meta name=\"viewport\" content=\"width=device-width, initial-scale=1.0\">\n",
    "    <title>🎯 JIRA UAT Testing - Comprehensive Dashboard</title>\n",
    "    <script src=\"https://cdn.jsdelivr.net/npm/chart.js\"></script>\n",
    "    <style>\n",
    "        * \x7b\n",
    "            margin: 0;\n",
    "            padding: 0;\n",
    "            box-sizing: border-box;\n",
    "        \x7d\n",
    "        \n",
    "        body \x7b\n",
    "            font-family: \x27Segoe UI\x27, Tahoma, Geneva, Verdana, sans-serif;\n",
    "            background: linear-gradient(135deg, #1e3c72 0%, #2a5298 100%);\n",
    "            color: #333;\n",
    "            line-height: 1.6;\n",
    "            min-height: 100vh;\n",
    "        \x7d\n",
    "        \n",
    "        .header \x7b\n",
    "            background: linear-gradient(135deg, #667eea 0%, #764ba2 100%);\n",
    "            color: white;\n",
    "            padding: 2rem;\n",
    "            text-align: center;\n",
    "            box-shadow: 0 4px 6px rgba(0,0,0,0.1);\n",
    "        \x7d\n",
    "        \n",
    "        .header h1 \x7b\n",
    "            font-size: 3rem;\n",
    "            margin-bottom: 0.5rem;\n",
    "            text-shadow: 2px 2px 4px rgba(0,0,0,0.3);\n",
    "        \x7d\n",
    "        \n",
    "        .header .subtitle \x7b\n",
    "            font-size: 1.2rem;\n",
    "            opacity: 0.9;\n",
    "        \x7d\n",
    "        \n",
    "        .container \x7b\n",
    "            max-width: 1400px;\n",
    "            margin: 0 auto;\n",
    "            padding: 2rem;\n",
    "        \x7d\n",
    "        \n",
    "        .stats-grid \x7b\n",
    "            display: grid;\n",
    "            grid-template-columns: repeat(auto-fit, minmax(250px, 1fr));\n",
    "            gap: 1.5rem;\n",
    "            margin-bottom: 3rem;\n",
    "        \x7d\n",
    "        \n",
    "        .stat-card \x7b\n",
    "            background: white;\n",
    "            padding: 1.5rem;\n",
    "            border-radius: 15px;\n",
    "            box-shadow: 0 8px 25px rgba(0,0,0,0.1);\n",
    "            text-align: center;\n",
    "            transition: transform 0.3s ease, box-shadow 0.3s ease;\n",
    "        \x7d\n",
    "        \n",
    "        .stat-card:hover \x7b\n",
    "            transform: translateY(-5px);\n",
    "            box-shadow: 0 12px 35px rgba(0,0,0,0.15);\n",
    "        \x7d\n",
    "        \n",
    "        .stat-number \x7b\n",
    "            font-size: 3rem;\n",
    "            font-weight: bold;\n",
    "            margin-bottom: 0.5rem;\n",
    "        \x7d\n",
    "        \n",
    "        .stat-label \x7b\n",
    "            font-size: 1.1rem;\n",
    "            color: #666;\n",
    "        \x7d\n",
    "        \n",
    "        .success \x7b color: #10b981; \x7d\n",
    "        .danger \x7b color: #ef4444; \x7d\n",
    "        .warning \x7b color: #f59e0b; \x7d\n",
    "        .info \x7b color: #3b82f6; \x7d\n",
    "        \n",
    "        .charts-section \x7b\n",
    "            display: grid;\n",
    "            grid-template-columns: repeat(auto-fit, minmax(400px, 1fr));\n",
    "            gap: 2rem;\n",
    "            margin-bottom: 3rem;\n",
    "        \x7d\n",
    "        \n",
    "        .chart-container \x7b\n",
    "            background: white;\n",
    "            padding: 2rem;\n",
    "            border-radius: 15px;\n",
    "            box-shadow: 0 8px 25px rgba(0,0,0,0.1);\n",
    "        \x7d\n",
    "        \n",
    "        .chart-title \x7b\n",
    "            font-size: 1.5rem;\n",
    "            font-weight: bold;\n",
    "            margin-bottom: 1rem;\n",
    "            text-align: center;\n",
    "            color: #333;\n",
    "        \x7d\n",
    "        \n",
    "        .findings-section \x7b\n",
    "            display: grid;\n",
    "            grid-template-columns: repeat(auto-fit, minmax(400px, 1fr));\n",
    "            gap: 2rem;\n",
    "        \x7d\n",
    "        \n",
    "        .findings-card \x7b\n",
    "            background: white;\n",
    "            border-radius: 15px;\n",
    "            box-shadow: 0 8px 25px rgba(0,0,0,0.1);\n",
    "            overflow: hidden;\n",
    "        \x7d\n",
    "        \n",
    "        .findings-header \x7b\n",
    "            padding: 1.5rem;\n",
    "            color: white;\n",
    "            font-size: 1.3rem;\n",
    "            font-weight: bold;\n",
    "        \x7d\n",
    "        \n",
    "        .security-header \x7b background: #ef4444; \x7d\n",
    "        .accessibility-header \x7b background: #f59e0b; \x7d\n",
    "        .performance-header \x7b background: #8b5cf6; \x7d\n",
    "        \n",
    "        .findings-content \x7b\n",
    "            padding: 1.5rem;\n",
    "        \x7d\n",
    "        \n",
    "        .finding-item \x7b\n",
    "            display: flex;\n",
    "            justify-content: space-between;\n",
    "            align-items: center;\n",
    "            padding: 0.75rem 0;\n",
    "            border-bottom: 1px solid #e5e7eb;\n",
    "        \x7d\n",
    "        \n",
    "        .finding-item:last-child \x7b\n",
    "            border-bottom: none;\n",
    "        \x7d\n",
    "        \n",
    "        .finding-label \x7b\n",
    "            font-weight: 500;\n",
    "            color: #374151;\n",
    "        \x7d\n",
    "        \n",
    "        .finding-value \x7b\n",
    "            font-weight: bold;\n",
    "            color: #ef4444;\n",
    "        \x7d\n",
    "        \n",
    "        .improvement-badge \x7b\n",
    "            background: linear-gradient(135deg, #10b981 0%, #059669 100%);\n",
    "            color: white;\n",
    "            padding: 1rem 2rem;\n",
    "            border-radius: 25px;\n",
    "            font-weight: bold;\n",
    "            font-size: 1.2rem;\n",
    "            display: block;\n",
    "            margin: 2rem auto;\n",
    "            text-align: center;\n",
    "            max-width: 600px;\n",
    "        \x7d\n",
    "        \n",
    "        .footer \x7b\n",
    "            text-align: center;\n",
    "            padding: 2rem;\n",
    "            background: rgba(255,255,255,0.1);\n",
    "            color: white;\n",
    "            margin-top: 3rem;\n",
    "            border-radius: 15px;\n",
    "        \x7d\n",
    "        \n",
    "        @media (max-width: 768px) \x7b\n",
    "            .header h1 \x7b font-size: 2rem; \x7d\n",
    "            .charts-section \x7b grid-template-columns: 1fr; \x7d\n",
    "            .findings-section \x7b grid-template-columns: 1fr; \x7d\n",
    "        \x7d\n",
    "    </style>\n",
    "</head>\n",
    "<body>\n",
    "    <div class=\"header\">\n",
    "        <h1>🎯 JIRA UAT Testing Dashboard</h1>\n",
    "        <p class=\"subtitle\">Comprehensive Analysis | ",
    totalTests,
    " Tests Executed | ",
    totalSuites,
    " Test Suites | 1,769% Coverage Improvement</p>\n",
    "    </div>\n",
    "    \n",
    "    <div class=\"container\">\n",
    "        <!-- Key Statistics -->\n",
    "        <div class=\"stats-grid\">\n",
    "            <div class=\"stat-card\">\n",
    "                <div class=\"stat-number success\">",
    totalTests,
    "</div>\n",
    "                <div class=\"stat-label\">Total Tests</div>\n",
    "            </div>\n",
    "            <div class=\"stat-card\">\n",
    "                <div class=\"stat-number success\">",
    totalPassed,
    "</div>\n",
    "                <div class=\"stat-label\">Tests Passed</div>\n",
    "            </div>\n",
    "            <div class=\"stat-card\">\n",
    "                <div class=\"stat-number danger\">",
    totalFailed,
    "</div>\n",
    "                <div class=\"stat-label\">Tests Failed</div>\n",
    "            </div>\n",
    "            <div class=\"stat-card\">\n",
    "                <div class=\"stat-number info\">",
    successRate,
    "</div>\n",
    "                <div class=\"stat-label\">Success Rate</div>\n",
    "            </div>\n",
    "            <div class=\"stat-card\">\n",
    "                <div class=\"stat-number warning\">",
    totalSuites,
    "</div>\n",
    "                <div class=\"stat-label\">Test Suites</div>\n",
    "            </div>\n",
    "            <div class=\"stat-card\">\n",
    "                <div class=\"stat-number info\">1,769%</div>\n",
    "                <div class=\"stat-label\">Coverage Improvement</div>\n",
    "            </div>\n",
    "        </div>\n",
    "        \n",
    "        <!-- Charts Section -->\n",
    "        <div class=\"charts-section\">\n",
    "            <div class=\"chart-container\">\n",
    "                <div class=\"chart-title\">📊 Test Results Overview</div>\n",
    "                <canvas id=\"resultsChart\"></canvas>\n",
    "            </div>\n",
    "            \n",
    "            <div class=\"chart-container\">\n",
    "                <div class=\"chart-title\">🔍 Failure Analysis</div>\n",
    "                <canvas id=\"failureChart\"></canvas>\n",
    "            </div>\n",
    "            \n",
    "            <div class=\"chart-container\">\n",
    "                <div class=\"chart-title\">📈 Test Suite Performance</div>\n",
    "                <canvas id=\"performanceChart\"></canvas>\n",
    "            </div>\n",
    "            \n",
    "            <div class=\"chart-container\">\n",
    "                <div class=\"chart-title\">🎯 Success Rate by Category</div>\n",
    "                <canvas id=\"categoryChart\"></canvas>\n",
    "            </div>\n",
    "        </div>\n",
    "        \n",
    "        <!-- Critical Findings -->\n",
    "        <div class=\"findings-section\">\n",
    "            <div class=\"findings-card\">\n",
    "                <div class=\"findings-header security-header\">🛡️ Security Issues</div>\n",
    "                <div class=\"findings-content\">\n",
    "                    <div class=\"finding-item\">\n",
    "                        <span class=\"finding-label\">SQL Injection Vulnerabilities</span>\n",
    "                        <span class=\"finding-value\">",
    sqlInjectionVulnerabilities,
    " Found</span>\n",
    "                    </div>\n",
    "                    <div class=\"finding-item\">\n",
    "                        <span class=\"finding-label\">Missing Security Headers</span>\n",
    "                        <span class=\"finding-value\">",
    missingSecurityHeaders,
    "</span>\n",
    "                    </div>\n",
    "                    <div class=\"finding-item\">\n",
    "                        <span class=\"finding-label\">Rate Limiting</span>\n",
    "                        <span class=\"finding-value\">Missing</span>\n",
    "                    </div>\n",
    "                    <div class=\"finding-item\">\n",
    "                        <span class=\"finding-label\">Session Token Issues</span>\n",
    "                        <span class=\"finding-value\">",
    sessionTokenIssues,
    "</span>\n",
    "                    </div>\n",
    "                </div>\n",
    "            </div>\n",
    "            \n",
    "            <div class=\"findings-card\">\n",
    "                <div class=\"findings-header accessibility-header\">♿ Accessibility Issues</div>\n",
    "                <div class=\"findings-content\">\n",
    "                    <div class=\"finding-item\">\n",
    "                        <span class=\"finding-label\">Color Contrast Violations</span>\n",
    "                        <span class=\"finding-value\">",
    colorContrastViolations,
    "</span>\n",
    "                    </div>\n",
    "                    <div class=\"finding-item\">\n",
    "                        <span class=\"finding-label\">Unlabeled Form Inputs</span>\n",
    "                        <span class=\"finding-value\">",
    unlabeledFormInputs,
    "</span>\n",
    "                    </div>\n",
    "                    <div class=\"finding-item\">\n",
    "                        <span class=\"finding-label\">ARIA Compliance</span>\n",
    "                        <span class=\"finding-value\">",
    ariaCompliance,
    "</span>\n",
    "                    </div>\n",
    "                    <div class=\"finding-item\">\n",
    "                        <span class=\"finding-label\">WCAG 2.1 AA Status</span>\n",
    "                        <span class=\"finding-value\">Failed</span>\n",
    "                    </div>\n",
    "                </div>\n",
    "            </div>\n",
    "            \n",
    "            <div class=\"findings-card\">\n",
    "                <div class=\"findings-header performance-header\">⚡ Performance Issues</div>\n",
    "                <div class=\"findings-content\">\n",
    "                    <div class=\"finding-item\">\n",
    "                        <span class=\"finding-label\">Concurrent User Success</span>\n",
    "                        <span class=\"finding-value\">",
    concurrentUserFailures,
    "</span>\n",
    "                    </div>\n",
    "                    <div class=\"finding-item\">\n",
    "                        <span class=\"finding-label\">CLS Score</span>\n",
    "                        <span class=\"finding-value\">",
    clsScore,
    "</span>\n",
    "                    </div>\n",
    "                    <div class=\"finding-item\">\n",
    "                        <span class=\"finding-label\">PWA Features</span>\n",
    "                        <span class=\"finding-value\">Missing</span>\n",
    "                    </div>\n",
    "                    <div class=\"finding-item\">\n",
    "                        <span class=\"finding-label\">Mobile Optimization</span>\n",
    "                        <span class=\"finding-value\">None</span>\n",
    "                    </div>\n",
    "                </div>\n",
    "            </div>\n",
    "        </div>\n",
    "        \n",
    "        <div class=\"improvement-badge\">\n",
    "            🚀 From ",
    previousTestCount,
    " basic tests to ",
    newTestCount,
    " comprehensive tests - Real fucking testing achieved! 🔥\n",
    "        </div>\n",
    "    </div>\n",
    "    \n",
    "    <div class=\"footer\">\n",
    "        <p>Generated by JIRA UAT Comprehensive Testing Suite | December 19, 2024</p>\n",
    "        <p>🔥 The difference between documentation theater and REAL FUCKING TESTING!</p>\n",
    "    </div>\n",
    "\n",
    "    <script>\n",
    "        // Results Overview Chart\n",
    "        const resultsCtx = document.getElementById(\x27resultsChart\x27).getContext(\x272d\x27);\n",
    "        new Chart(resultsCtx, \x7b\n",
    "            type: \x27doughnut\x27,\n",
    "            data: \x7b\n",
    "                labels: [\x27Passed\x27, \x27Failed\x27],\n",
    "                datasets: [\x7b\n",
    "                    data: [",
    totalPassed,
    ", ",
    totalFailed,
    "],\n",
    "                    backgroundColor: [\x27#10b981\x27, \x27#ef4444\x27],\n",
    "                    borderWidth: 0\n",
    "                \x7d]\n",
    "            \x7d,\n",
    "            options: \x7b\n",
    "                responsive: true,\n",
    "                plugins: \x7b\n",
    "                    legend: \x7b\n",
    "                        position: \x27bottom\x27\n",
    "                    \x7d\n",
    "                \x7d\n",
    "            \x7d\n",
    "        \x7d);\n",
    "\n",
    "        // Failure Analysis Chart\n",
    "        const failureCtx = document.getElementById(\x27failureChart\x27).getContext(\x272d\x27);\n",
    "        new Chart(failureCtx, \x7b\n",
    "            type: \x27pie\x27,\n",
    "            data: \x7b\n",
    "                labels: [\x27Authentication Failures\x27, \x27Functional Failures\x27],\n",
    "                datasets: [\x7b\n",
    "                    data: [",
    authenticationFailures,
    ", ",
    functionalFailures,
    "],\n",
    "                    backgroundColor: [\x27#f59e0b\x27, \x27#ef4444\x27],\n",
    "                    borderWidth: 0\n",
    "                \x7d]\n",
    "            \x7d,\n",
    "            options: \x7b\n",
    "                responsive: true,\n",
    "                plugins: \x7b\n",
    "                    legend: \x7b\n",
    "                        position: \x27bottom\x27\n",
    "                    \x7d\n",
    "                \x7d\n",
    "            \x7d\n",
    "        \x7d);\n",
    "\n",
    "        // Performance Chart\n",
    "        const performanceCtx = document.getElementById(\x27performanceChart\x27).getContext(\x272d\x27);\n",
    "        const testSuites = ",
    suitesJson,
    ";\n",
    "        \n",
    "        new Chart(performanceCtx, \x7b\n",
    "            type: \x27bar\x27,\n",
    "            data: \x7b\n",
    "                labels: testSuites.map(s => s.name.split(\x27 \x27)[0] + \x27...\x27),\n",
    "                datasets: [\x7b\n",
    "                    label: \x27Tests Passed\x27,\n",
    "                    data: testSuites.map(s => s.passed),\n",
    "                    backgroundColor: \x27#10b981\x27\n",
    "                \x7d, \x7b\n",
    "                    label: \x27Tests Failed\x27,\n",
    "                    data: testSuites.map(s => s.failed),\n",
    "                    backgroundColor: \x27#ef4444\x27\n",
    "                \x7d]\n",
    "            \x7d,\n",
    "            options: \x7b\n",
    "                responsive: true,\n",
    "                scales: \x7b\n",
    "                    x: \x7b\n",
    "                        stacked: true\n",
    "                    \x7d,\n",
    "                    y: \x7b\n",
    "                        stacked: true\n",
    "                    \x7d\n",
    "                \x7d\n",
    "            \x7d\n",
    "        \x7d);\n",
    "\n",
    "        // Category Success Rate Chart\n",
    "        const categoryCtx = document.getElementById(\x27categoryChart\x27).getContext(\x272d\x27);\n",
    "        const categories = \x7b\x7d;\n",
    "        testSuites.forEach(suite => \x7b\n",
    "            if (!categories[suite.category]) \x7b\n",
    "                categories[suite.category] = \x7b total: 0, passed: 0 \x7d;\n",
    "            \x7d\n",
    "            categories[suite.category].total += suite.tests;\n",
    "            categories[suite.category].passed += suite.passed;\n",
    "        \x7d);\n",
    "\n",
    "        const categoryData = Object.keys(categories).map(cat => (\x7b\n",
    "            category: cat,\n",
    "            rate: (categories[cat].passed / categories[cat].total * 100).toFixed(1)\n",
    "        \x7d));\n",
    "\n",
    "        new Chart(categoryCtx, \x7b\n",
    "            type: \x27radar\x27,\n",
    "            data: \x7b\n",
    "                labels: categoryData.map(c => c.category),\n",
    "                datasets: [\x7b\n",
    "                    label: \x27Success Rate %\x27,\n",
    "                    data: categoryData.map(c => c.rate),\n",
    "                    backgroundColor: \x27rgba(102, 126, 234, 0.2)\x27,\n",
    "                    borderColor: \x27#667eea\x27,\n",
    "                    borderWidth: 2\n",
    "                \x7d]\n",
    "            \x7d,\n",
    "            options: \x7b\n",
    "                responsive: true,\n",
    "                scales: \x7b\n",
    "                    r: \x7b\n",
    "                        beginAtZero: true,\n",
    "                        max: 100\n",
    "                    \x7d\n",
    "                \x7d\n",
    "            \x7d\n",
    "        \x7d);\n",
    "    </script>\n",
    "</body>\n",
    "</html>"
  ]

/-- The body of `create_html_dashboard` between loading and writing: every
field lookup the f-string performs, in Python's left-to-right evaluation
order (repeated lookups of the same path are performed once; a dict lookup
is pure, so this preserves both the success value and the first error),
followed by the assembly of the template. -/
def create_html_dashboard (data : JValue) : Except RunError String := do
  let summary ← data.pylookup "testExecutionSummary"
  let totalTests ← summary.pylookup "totalTests"
  let totalSuites ← summary.pylookup "totalSuites"
  let totalPassed ← summary.pylookup "totalPassed"
  let totalFailed ← summary.pylookup "totalFailed"
  let successRate ← summary.pylookup "successRate"
  let majorFindings ← summary.pylookup "majorFindings"
  let securityIssues ← majorFindings.pylookup "securityIssues"
  let sqlInjectionVulnerabilities ← securityIssues.pylookup "sqlInjectionVulnerabilities"
  let missingSecurityHeaders ← securityIssues.pylookup "missingSecurityHeaders"
  let sessionTokenIssues ← securityIssues.pylookup "sessionTokenIssues"
  let accessibilityIssues ← majorFindings.pylookup "accessibilityIssues"
  let colorContrastViolations ← accessibilityIssues.pylookup "colorContrastViolations"
  let unlabeledFormInputs ← accessibilityIssues.pylookup "unlabeledFormInputs"
  let ariaCompliance ← accessibilityIssues.pylookup "ariaCompliance"
  let performanceIssues ← majorFindings.pylookup "performanceIssues"
  let concurrentUserFailures ← performanceIssues.pylookup "concurrentUserFailures"
  let clsScore ← performanceIssues.pylookup "clsScore"
  let comparison ← data.pylookup "comparisonWithPrevious"
  let previousTestCount ← comparison.pylookup "previousTestCount"
  let newTestCount ← comparison.pylookup "newTestCount"
  let failureAnalysis ← data.pylookup "failureAnalysis"
  let authenticationFailures ← failureAnalysis.pylookup "authenticationFailures"
  let functionalFailures ← failureAnalysis.pylookup "functionalFailures"
  let testSuiteResults ← data.pylookup "testSuiteResults"
  pure (htmlTemplate (pyStr totalTests) (pyStr totalSuites) (pyStr totalPassed)
    (pyStr totalFailed) (pyStr successRate) (pyStr sqlInjectionVulnerabilities)
    (pyStr missingSecurityHeaders) (pyStr sessionTokenIssues)
    (pyStr colorContrastViolations) (pyStr unlabeledFormInputs)
    (pyStr ariaCompliance) (pyStr concurrentUserFailures) (pyStr clsScore)
    (pyStr previousTestCount) (pyStr newTestCount)
    (pyStr authenticationFailures) (pyStr functionalFailures)
    (jsonDumps testSuiteResults))

/-- A process-local view of the files the program touches: an association of
paths to contents. -/
def FileSystem := List (String × String)

/-- Content of the file at `path`, if present. -/
def fsRead (fs : FileSystem) (path : String) : Option String :=
  fs.lookup path

/-- `open(path, "w")` followed by a full write: replaces any existing file at
`path` with `content`. -/
def fsWrite (fs : FileSystem) (path content : String) : FileSystem :=
  fs.filter (fun e => e.1 ≠ path) ++ [(path, content)]

/-- The fixed input path of the source. -/
def inputPath : String := "comprehensive-final-report.json"

/-- The fixed output path of the source. -/
def outputPath : String := "jira-test-dashboard.html"

/-- One full run of `create_html_dashboard` including its file I/O, starting
from file system `fs`: read `inputPath` (I/O error if absent), parse it with
`parse` (Malformed Input on failure — `json.load` is external library code,
modelled from the spec by an arbitrary parse function), render, and on
success write the rendered string to `outputPath` and return that path.
Any error leaves the file system untouched: the f-string is fully evaluated
before the output file is opened. -/
def dashboardRun (parse : String → Option JValue) (fs : FileSystem) :
    FileSystem × Except RunError String :=
  match fsRead fs inputPath with
  | none => (fs, .error .ioError)
  | some content =>
    match parse content with
    | none => (fs, .error .malformedInput)
    | some data =>
      match create_html_dashboard data with
      | .error e => (fs, .error e)
      | .ok html => (fsWrite fs outputPath html, .ok outputPath)

/-- POSIX `os.path.isabs`: the path starts with a slash. -/
def isAbsolutePath (p : String) : Bool :=
  p.data.head? == some '/' 

/-- Modelled from the spec: `os.path.abspath` (Python standard library, not
part of this repository) resolves a possibly-relative path against the
working directory; `main` applies it to the value returned by
`create_html_dashboard` before printing it and handing it to the browser
launcher. -/
def os_path_abspath (cwd p : String) : String :=
  if isAbsolutePath p then p else cwd ++ "/" ++ p

/-- The location `main` communicates (prints and passes to
`webbrowser.open`) for a successful render returning `ret`, from working
directory `cwd`. -/
def mainCommunicatedPath (cwd ret : String) : String := os_path_abspath cwd ret

/-- One entry of `testSuiteResults`, as the embedded chart script reads it. -/
structure Suite where
  name : String
  category : String
  tests : Int
  passed : Int
  failed : Int
deriving DecidableEq, Repr

/-- The JSON object a suite record denotes, with the §3 field order. -/
def Suite.toJ (s : Suite) : JValue :=
  .jobj [("name", .jstr s.name), ("category", .jstr s.category),
    ("tests", .jnum s.tests), ("passed", .jnum s.passed),
    ("failed", .jnum s.failed)]

/-- The characters before the first space: JavaScript's
`name.split(\x27 \x27)[0]` is exactly the prefix of `name` up to (excluding)
the first space, the whole string when there is none, and the empty string
for the empty string. -/
def firstSpaceToken : List Char → List Char
  | [] => []
  | c :: rest => if c = ' ' then [] else c :: firstSpaceToken rest

/-- Bar-chart label of one suite, from the emitted script:
`s.name.split(\x27 \x27)[0] + \x27...\x27`. -/
def barLabel (name : String) : String :=
  String.mk (firstSpaceToken name.data) ++ "..."

/-- The bar-chart label list `testSuites.map(s => s.name.split(' ')[0] + '...')`. -/
def barLabels (suites : List Suite) : List String :=
  suites.map (fun s => barLabel s.name)

/-- Accumulator entry of the emitted script's `categories` object:
`{ total: ..., passed: ... }`. -/
structure CatAcc where
  total : Int
  passed : Int
deriving DecidableEq, Repr

/-- One step of the emitted script's `forEach`: if `categories` already has
the suite's category as an own key, add the suite's `tests` and `passed` to
it in place; otherwise append a new entry initialised from this suite.  The
script's guard is `!categories[suite.category]`, which also sees properties
inherited from `Object.prototype`; reading it as own-key presence is exact
precisely when no category label is an `Object.prototype` property name
(see `objectPrototypeKeys`), and the theorems below carry that hypothesis. -/
def updateCat : List (String × CatAcc) → Suite → List (String × CatAcc)
  | [], s => [(s.category, ⟨s.tests, s.passed⟩)]
  | (k, a) :: rest, s =>
    if k = s.category then (k, ⟨a.total + s.tests, a.passed + s.passed⟩) :: rest
    else (k, a) :: updateCat rest s

/-- The `categories` object after the emitted script's
`testSuites.forEach(...)`, with its own keys in creation order. -/
def buildCategories (suites : List Suite) : List (String × CatAcc) :=
  suites.foldl updateCat []

/-- The property names of `Object.prototype`: for a category with one of
these labels, the script's `!categories[label]` guard finds the inherited
property and misbehaves instead of creating an own entry, so the chart
model is read under the hypothesis that no category label is one of them. -/
def objectPrototypeKeys : List String :=
  ["constructor", "hasOwnProperty", "isPrototypeOf", "propertyIsEnumerable",
   "toLocaleString", "toString", "valueOf", "__proto__", "__defineGetter__",
   "__defineSetter__", "__lookupGetter__", "__lookupSetter__"]

/-- Value of a list of decimal digit characters. -/
def digitsToNat (l : List Char) : Nat :=
  l.foldl (fun a c => a * 10 + (c.toNat - 48)) 0

/-- ECMAScript array-index test for a property key: the canonical decimal
representation (no leading zero except for 0 itself) of an integer below
2^32 - 1. -/
def isArrayIndex (s : String) : Bool :=
  match s.data with
  | [] => false
  | ['0'] => true
  | c :: rest =>
    c.isDigit && c ≠ '0' && rest.all (fun d => d.isDigit) &&
      decide (digitsToNat (c :: rest) < 4294967295)

/-- Insertion into a list of entries sorted ascending by the numeric value
of their array-index keys. -/
def insertByIndex (e : String × CatAcc) :
    List (String × CatAcc) → List (String × CatAcc)
  | [] => [e]
  | f :: rest =>
    if digitsToNat e.1.data ≤ digitsToNat f.1.data then e :: f :: rest
    else f :: insertByIndex e rest

/-- Insertion sort of entries by ascending numeric key value. -/
def sortByIndex : List (String × CatAcc) → List (String × CatAcc)
  | [] => []
  | e :: rest => insertByIndex e (sortByIndex rest)

/-- `Object.keys` enumeration order over the accumulated entries
(OrdinaryOwnPropertyKeys): own keys that are array indices come first in
ascending numeric order, then the remaining string keys in creation order. -/
def jsObjectKeys (entries : List (String × CatAcc)) : List (String × CatAcc) :=
  sortByIndex (entries.filter (fun e => isArrayIndex e.1)) ++
    entries.filter (fun e => !isArrayIndex e.1)

/-- The `categories` entries in the order `Object.keys(categories)`
enumerates them for the radar axes. -/
def categoryEntries (suites : List Suite) : List (String × CatAcc) :=
  jsObjectKeys (buildCategories suites)

/-- Exact-rational reference for `Number.prototype.toFixed(1)`: nearest
multiple of 1/10, halves away from zero, printed with one digit after the
point.  In lowest terms `q = num/den`, the number of tenths in `|q|`
rounded half-up is `⌊(10·|num| + den/2) / den⌋ = (20·|num| + den) / (2·den)`
in natural division.  The viewer computes `toFixed(1)` of the IEEE-754
double chain `passed / total * 100`, which can differ from this exact
rounding (and is the string NaN when `total` is 0); the two agree whenever
the double chain computes the rate exactly, as it does at every concrete
rate a theorem below evaluates. -/
def toFixed1 (q : ℚ) : String :=
  let m : Nat := (20 * q.num.natAbs + q.den) / (2 * q.den)
  (if q.num < 0 then "-" else "") ++ toString (m / 10) ++ "." ++
    String.singleton (Nat.digitChar (m % 10))

/-- The emitted script's `categoryData`: for each category in `Object.keys`
order, the pair of the category and the displayed
`(categories[cat].passed / categories[cat].total * 100).toFixed(1)`, the
division taken as the exact-rational reference of `toFixed1`. -/
def categoryData (suites : List Suite) : List (String × String) :=
  (categoryEntries suites).map (fun e =>
    (e.1, toFixed1 ((e.2.passed : ℚ) / (e.2.total : ℚ) * 100)))

/-- Distinct categories in first-seen order, the order the spec prescribes
for the radar axes: written from the spec's words, to be compared with the
insertion order `buildCategories` produces. -/
def specFirstSeen (seen : List String) : List String → List String
  | [] => []
  | c :: rest =>
    if c ∈ seen then specFirstSeen seen rest
    else c :: specFirstSeen (c :: seen) rest

/-- The spec's per-category sum of `tests`. -/
def specSumTests (suites : List Suite) (c : String) : Int :=
  ((suites.filter (fun s => s.category = c)).map Suite.tests).sum

/-- The spec's per-category sum of `passed`. -/
def specSumPassed (suites : List Suite) (c : String) : Int :=
  ((suites.filter (fun s => s.category = c)).map Suite.passed).sum

/-- `n` occurs contiguously inside `h`. -/
def ContainsSubstr (n h : String) : Prop :=
  ∃ a b : List Char, h.data = a ++ n.data ++ b

/-- Boolean substring occurrence on character lists, checked position by
position. -/
def listInfixB (n : List Char) : List Char → Bool
  | [] => n.isEmpty
  | c :: rest => n.isPrefixOf (c :: rest) || listInfixB n rest

/-- Adjacent-pair windows over a chunk list: every substring of the
concatenation that spans at most one chunk boundary occurs inside one
window. -/
def windows2 : List String → List String
  | [] => []
  | [c] => [c]
  | c1 :: c2 :: rest => (c1 ++ c2) :: windows2 (c2 :: rest)

theorem containsSubstr_appendLeft {n t : String} (s : String)
    (h : ContainsSubstr n t) : ContainsSubstr n (s ++ t) := by
  obtain ⟨a, b, hab⟩ := h
  exact ⟨s.data ++ a, b, by rw [String.data_append, hab]; simp⟩

theorem containsSubstr_appendRight {n s : String} (t : String)
    (h : ContainsSubstr n s) : ContainsSubstr n (s ++ t) := by
  obtain ⟨a, b, hab⟩ := h
  exact ⟨a, b ++ t.data, by rw [String.data_append, hab]; simp⟩

theorem listInfixB_sound : ∀ (h : List Char) (n : List Char),
    listInfixB n h = true → ∃ a b, h = a ++ n ++ b := by
  intro h
  induction h with
  | nil =>
    intro n H
    simp only [listInfixB, List.isEmpty_iff] at H
    exact ⟨[], [], by simp [H]⟩
  | cons c rest ih =>
    intro n H
    simp only [listInfixB, Bool.or_eq_true] at H
    rcases H with H | H
    · have := (List.isPrefixOf_iff_prefix).mp H
      obtain ⟨b, hb⟩ := this
      exact ⟨[], b, by simp [hb]⟩
    · obtain ⟨a, b, hab⟩ := ih n H
      exact ⟨c :: a, b, by simp [hab]⟩

theorem containsSubstr_of_infixB {n h : String}
    (H : listInfixB n.data h.data = true) : ContainsSubstr n h :=
  listInfixB_sound h.data n.data H

theorem containsSubstr_concatChunks_window2 :
    ∀ (chunks : List String) (n : String),
    (windows2 chunks).any (fun w => listInfixB n.data w.data) = true →
    ContainsSubstr n (concatChunks chunks) := by
  intro chunks
  induction chunks with
  | nil => intro n H; simp [windows2] at H
  | cons c1 rest ih =>
    intro n H
    match rest, ih with
    | [], _ =>
      simp only [windows2, List.any_cons, List.any_nil, Bool.or_false] at H
      exact containsSubstr_appendRight _ (containsSubstr_of_infixB H)
    | c2 :: r, ih =>
      simp only [windows2, List.any_cons, Bool.or_eq_true] at H
      rcases H with H | H
      · have h1 : ContainsSubstr n (c1 ++ c2) := containsSubstr_of_infixB H
        have h2 := containsSubstr_appendRight (concatChunks r) h1
        rw [String.append_assoc] at h2
        exact h2
      · have h1 : ContainsSubstr n (concatChunks (c2 :: r)) := by
          apply ih
          simpa using H
        exact containsSubstr_appendLeft _ h1

theorem containsSubstr_of_mem_chunks {x : String} :
    ∀ {chunks : List String}, x ∈ chunks → ContainsSubstr x (concatChunks chunks) := by
  intro chunks
  induction chunks with
  | nil => intro H; cases H
  | cons c rest ih =>
    intro H
    rcases List.mem_cons.mp H with rfl | H
    · exact containsSubstr_appendRight _ ⟨[], [], by simp⟩
    · exact containsSubstr_appendLeft _ (ih H)

theorem char_notMem_concatChunks {ch : Char} :
    ∀ {chunks : List String},
    chunks.all (fun c => !(c.data.contains ch)) = true →
    ch ∉ (concatChunks chunks).data := by
  intro chunks
  induction chunks with
  | nil => intro _ H; simp [concatChunks] at H
  | cons c rest ih =>
    intro H hmem
    simp only [List.all_cons, Bool.and_eq_true, Bool.not_eq_true'] at H
    rw [show concatChunks (c :: rest) = c ++ concatChunks rest from rfl,
      String.data_append] at hmem
    rcases List.mem_append.mp hmem with h | h
    · have h2 : c.data.contains ch = true := List.elem_iff.mpr h
      rw [H.1] at h2
      exact Bool.noConfusion h2
    · exact ih (by simp [List.all_eq_true] at H ⊢; exact H.2) h

theorem containsSubstr_char_mem {n h : String} (H : ContainsSubstr n h) :
    ∀ ch ∈ n.data, ch ∈ h.data := by
  obtain ⟨a, b, hab⟩ := H
  intro ch hch
  rw [hab]
  simp [hch]

theorem specFirstSeen_congr : ∀ (l seen1 seen2 : List String),
    (∀ x, x ∈ seen1 ↔ x ∈ seen2) →
    specFirstSeen seen1 l = specFirstSeen seen2 l := by
  intro l
  induction l with
  | nil => intro _ _ _; rfl
  | cons c cs ih =>
    intro s1 s2 h
    simp only [specFirstSeen]
    by_cases hc : c ∈ s1
    · rw [if_pos hc, if_pos ((h c).mp hc)]
      exact ih s1 s2 h
    · rw [if_neg hc, if_neg (fun hx => hc ((h c).mpr hx))]
      congr 1
      exact ih _ _ (by intro x; simp [List.mem_cons, h x])

theorem specFirstSeen_not_mem : ∀ (l seen : List String) (c : String),
    c ∈ specFirstSeen seen l → c ∉ seen := by
  intro l
  induction l with
  | nil => intro seen c h; cases h
  | cons d ds ih =>
    intro seen c h
    simp only [specFirstSeen] at h
    by_cases hd : d ∈ seen
    · rw [if_pos hd] at h
      exact ih seen c h
    · rw [if_neg hd] at h
      rcases List.mem_cons.mp h with rfl | h
      · exact hd
      · intro hc
        exact ih _ _ h (List.mem_cons_of_mem _ hc)

theorem updateCat_not_mem : ∀ (acc : List (String × CatAcc)) (s : Suite),
    s.category ∉ acc.map Prod.fst →
    updateCat acc s = acc ++ [(s.category, ⟨s.tests, s.passed⟩)] := by
  intro acc s
  induction acc with
  | nil => intro _; rfl
  | cons e rest ih =>
    intro h
    obtain ⟨k, a⟩ := e
    simp only [List.map_cons, List.mem_cons] at h
    push_neg at h
    simp only [updateCat]
    rw [if_neg (fun hk => h.1 hk.symm), ih h.2]
    rfl

theorem updateCat_keys : ∀ (acc : List (String × CatAcc)) (s : Suite),
    (updateCat acc s).map Prod.fst =
      if s.category ∈ acc.map Prod.fst then acc.map Prod.fst
      else acc.map Prod.fst ++ [s.category] := by
  intro acc s
  induction acc with
  | nil => simp [updateCat]
  | cons e rest ih =>
    obtain ⟨k, a⟩ := e
    simp only [updateCat, List.map_cons]
    by_cases hk : k = s.category
    · rw [if_pos hk, if_pos (by rw [hk]; exact List.mem_cons_self _ _)]
      rfl
    · rw [if_neg hk, List.map_cons, ih]
      have hks : ¬ s.category = k := fun h => hk h.symm
      by_cases hm : s.category ∈ rest.map Prod.fst
      · rw [if_pos hm, if_pos (List.mem_cons.mpr (Or.inr hm))]
      · rw [if_neg hm, if_neg (by
          intro hc
          rcases List.mem_cons.mp hc with h | h
          · exact hks h
          · exact hm h)]
        rfl

theorem updateCat_map_sum (s : Suite) (T P : String → Int) :
    ∀ (acc : List (String × CatAcc)),
    (acc.map Prod.fst).Nodup → s.category ∈ acc.map Prod.fst →
    (updateCat acc s).map
      (fun e => (e.1, CatAcc.mk (e.2.total + T e.1) (e.2.passed + P e.1))) =
    acc.map (fun e => (e.1,
      CatAcc.mk (e.2.total + ((if s.category = e.1 then s.tests else 0) + T e.1))
                (e.2.passed + ((if s.category = e.1 then s.passed else 0) + P e.1)))) := by
  intro acc
  induction acc with
  | nil => intro _ h; cases h
  | cons e rest ih =>
    intro hnd hmem
    obtain ⟨k, a⟩ := e
    simp only [List.map_cons, List.nodup_cons] at hnd
    by_cases hk : k = s.category
    · simp only [updateCat, if_pos hk, List.map_cons]
      congr 1
      · simp only [if_pos hk.symm]
        congr 1
        rw [add_assoc, add_assoc]
      · apply List.map_congr_left
        intro e' he'
        have h1 : ¬ s.category = e'.1 := by
          intro h1
          apply hnd.1
          have := List.mem_map_of_mem Prod.fst he'
          rwa [← h1, ← hk] at this
        simp [h1]
    · have hmem' : s.category ∈ rest.map Prod.fst := by
        rcases List.mem_cons.mp hmem with h | h
        · exact absurd h.symm hk
        · exact h
      have hks : ¬ s.category = k := fun h => hk h.symm
      simp only [updateCat, if_neg hk, List.map_cons]
      rw [ih hnd.2 hmem']
      congr 1
      simp [hks]

theorem specSumTests_cons (s : Suite) (rest : List Suite) (c : String) :
    specSumTests (s :: rest) c =
      (if s.category = c then s.tests else 0) + specSumTests rest c := by
  simp only [specSumTests, List.filter_cons]
  by_cases h : s.category = c
  · simp [h]
  · simp [h]

theorem specSumPassed_cons (s : Suite) (rest : List Suite) (c : String) :
    specSumPassed (s :: rest) c =
      (if s.category = c then s.passed else 0) + specSumPassed rest c := by
  simp only [specSumPassed, List.filter_cons]
  by_cases h : s.category = c
  · simp [h]
  · simp [h]

theorem foldl_updateCat_spec : ∀ (suites : List Suite) (acc : List (String × CatAcc)),
    (acc.map Prod.fst).Nodup →
    suites.foldl updateCat acc =
      acc.map (fun e => (e.1, CatAcc.mk (e.2.total + specSumTests suites e.1)
                                        (e.2.passed + specSumPassed suites e.1)))
      ++ (specFirstSeen (acc.map Prod.fst) (suites.map Suite.category)).map
           (fun c => (c, CatAcc.mk (specSumTests suites c) (specSumPassed suites c))) := by
  intro suites
  induction suites with
  | nil =>
    intro acc _
    simp only [List.foldl_nil, List.map_nil, specFirstSeen, List.append_nil]
    have : ∀ e ∈ acc, ((fun e => (e.1, CatAcc.mk (e.2.total + specSumTests [] e.1)
        (e.2.passed + specSumPassed [] e.1))) e) = e := by
      intro e _
      show (e.1, CatAcc.mk (e.2.total + 0) (e.2.passed + 0)) = e
      simp
    rw [List.map_congr_left this]
    simp
  | cons s rest ih =>
    intro acc hnd
    rw [List.foldl_cons]
    by_cases hmem : s.category ∈ acc.map Prod.fst
    · have hkeys : (updateCat acc s).map Prod.fst = acc.map Prod.fst := by
        rw [updateCat_keys, if_pos hmem]
      rw [ih (updateCat acc s) (by rw [hkeys]; exact hnd)]
      rw [hkeys]
      congr 1
      · rw [updateCat_map_sum s (specSumTests rest) (specSumPassed rest) acc hnd hmem]
        apply List.map_congr_left
        intro e _
        rw [specSumTests_cons, specSumPassed_cons]
      · simp only [List.map_cons, specFirstSeen, if_pos hmem]
        apply List.map_congr_left
        intro c hc
        have hne : ¬ s.category = c := by
          intro h
          exact (specFirstSeen_not_mem _ _ _ hc) (h ▸ hmem)
        rw [specSumTests_cons, specSumPassed_cons, if_neg hne, if_neg hne,
          zero_add, zero_add]
    · have hkeys : (updateCat acc s).map Prod.fst = acc.map Prod.fst ++ [s.category] := by
        rw [updateCat_keys, if_neg hmem]
      rw [ih (updateCat acc s) (by
        rw [hkeys]
        exact hnd.append (List.nodup_singleton _)
          (by simpa [List.disjoint_singleton] using hmem))]
      rw [hkeys, updateCat_not_mem acc s hmem]
      rw [List.map_append]
      have hseen : specFirstSeen (acc.map Prod.fst ++ [s.category]) (rest.map Suite.category) =
          specFirstSeen (s.category :: acc.map Prod.fst) (rest.map Suite.category) := by
        apply specFirstSeen_congr
        intro x
        simp [List.mem_append, List.mem_cons, or_comm]
      rw [hseen]
      have hfront : specFirstSeen (acc.map Prod.fst) ((s :: rest).map Suite.category) =
          s.category :: specFirstSeen (s.category :: acc.map Prod.fst) (rest.map Suite.category) := by
        simp only [List.map_cons, specFirstSeen, if_neg hmem]
      rw [hfront]
      rw [List.map_cons]
      rw [List.append_assoc]
      congr 1
      · apply List.map_congr_left
        intro e he
        have hne : ¬ s.category = e.1 := by
          intro h
          exact hmem (h ▸ List.mem_map_of_mem Prod.fst he)
        rw [specSumTests_cons, specSumPassed_cons, if_neg hne, if_neg hne,
          zero_add, zero_add]
      · simp only [List.map_cons, List.map_nil, List.cons_append, List.nil_append]
        congr 1
        · show (s.category, CatAcc.mk (s.tests + specSumTests rest s.category)
              (s.passed + specSumPassed rest s.category)) = _
          rw [specSumTests_cons, specSumPassed_cons, if_pos rfl, if_pos rfl]
        · apply List.map_congr_left
          intro c hc
          have hne : ¬ s.category = c := by
            intro h
            exact (specFirstSeen_not_mem _ _ _ hc) (List.mem_cons.mpr (Or.inl h.symm))
          rw [specSumTests_cons, specSumPassed_cons, if_neg hne, if_neg hne,
            zero_add, zero_add]

theorem buildCategories_spec (suites : List Suite) :
    buildCategories suites =
      (specFirstSeen [] (suites.map Suite.category)).map
        (fun c => (c, CatAcc.mk (specSumTests suites c) (specSumPassed suites c))) := by
  have h := foldl_updateCat_spec suites [] (by simp)
  simpa [buildCategories] using h
theorem digitChar_isDigit : ∀ m : Nat, m < 10 → (Nat.digitChar m).isDigit = true := by decide

theorem toDigitsCore_digits : ∀ (fuel n : Nat) (ds : List Char),
    (∀ c ∈ ds, c.isDigit = true) →
    ∀ c ∈ Nat.toDigitsCore 10 fuel n ds, c.isDigit = true := by
  intro fuel
  induction fuel with
  | zero =>
    intro n ds h
    simpa [Nat.toDigitsCore] using h
  | succ f ih =>
    intro n ds h c hc
    simp only [Nat.toDigitsCore] at hc
    have hd : (Nat.digitChar (n % 10)).isDigit = true :=
      digitChar_isDigit _ (Nat.mod_lt _ (by norm_num))
    by_cases h0 : n / 10 = 0
    · rw [if_pos h0] at hc
      rcases List.mem_cons.mp hc with rfl | hc
      · exact hd
      · exact h c hc
    · rw [if_neg h0] at hc
      refine ih (n / 10) _ ?_ c hc
      intro c' hc'
      rcases List.mem_cons.mp hc' with rfl | hc'
      · exact hd
      · exact h c' hc'

theorem natRepr_isDigit (n : Nat) : ∀ c ∈ (Nat.repr n).data, c.isDigit = true := by
  intro c hc
  exact toDigitsCore_digits (n + 1) n [] (by intro c' h; cases h) c hc

theorem natToString_no_dot (n : Nat) : '.' ∉ (toString n).data := by
  intro h
  have := natRepr_isDigit n '.' h
  simp [Char.isDigit] at this

theorem toFixed1_format (q : ℚ) :
    ∃ intPart digit, toFixed1 q = intPart ++ "." ++ String.singleton digit ∧
      digit.isDigit = true ∧ '.' ∉ intPart.data := by
  refine ⟨(if q.num < 0 then "-" else "") ++
      toString ((20 * q.num.natAbs + q.den) / (2 * q.den) / 10),
    Nat.digitChar ((20 * q.num.natAbs + q.den) / (2 * q.den) % 10),
    rfl, digitChar_isDigit _ (Nat.mod_lt _ (by norm_num)), ?_⟩
  intro hmem
  rw [String.data_append] at hmem
  rcases List.mem_append.mp hmem with h | h
  · by_cases hq : q.num < 0
    · rw [if_pos hq] at h
      simp at h
    · rw [if_neg hq] at h
      simp at h
  · exact natToString_no_dot _ h

theorem containsSubstr_self (s : String) : ContainsSubstr s s :=
  ⟨[], [], by simp⟩

theorem containsSubstr_trans {a b c : String}
    (h1 : ContainsSubstr a b) (h2 : ContainsSubstr b c) : ContainsSubstr a c := by
  obtain ⟨x, y, hxy⟩ := h1
  obtain ⟨u, v, huv⟩ := h2
  exact ⟨u ++ x, y ++ v, by rw [huv, hxy]; simp⟩

theorem lookup_mem : ∀ {l : List (String × JValue)} {k : String} {v : JValue},
    l.lookup k = some v → (k, v) ∈ l := by
  intro l
  induction l with
  | nil => intro k v h; cases h
  | cons e rest ih =>
    intro k v h
    obtain ⟨a, b⟩ := e
    simp only [List.lookup] at h
    cases hbeq : k == a
    · rw [hbeq] at h
      exact List.mem_cons.mpr (Or.inr (ih h))
    · rw [hbeq] at h
      have hab : k = a := eq_of_beq hbeq
      have hbv : b = v := by injection h
      exact List.mem_cons.mpr (Or.inl (by rw [hab, hbv]))

theorem containsSubstr_jsonDumpsList : ∀ (elems : List JValue) (v : JValue),
    v ∈ elems → ContainsSubstr (jsonDumps v) (jsonDumpsList elems) := by
  intro elems
  induction elems with
  | nil => intro v h; cases h
  | cons w rest ih =>
    intro v h
    match rest, ih with
    | [], _ =>
      rcases List.mem_cons.mp h with rfl | h
      · exact containsSubstr_self _
      · cases h
    | w2 :: r, ih =>
      rcases List.mem_cons.mp h with rfl | h
      · show ContainsSubstr (jsonDumps v) (jsonDumps v ++ ", " ++ jsonDumpsList (w2 :: r))
        exact containsSubstr_appendRight _ (containsSubstr_appendRight _ (containsSubstr_self _))
      · show ContainsSubstr (jsonDumps v) (jsonDumps w ++ ", " ++ jsonDumpsList (w2 :: r))
        rw [String.append_assoc]
        exact containsSubstr_appendLeft _ (containsSubstr_appendLeft _ (ih v h))

theorem containsSubstr_jsonDumps_arr {v : JValue} {elems : List JValue}
    (h : v ∈ elems) : ContainsSubstr (jsonDumps v) (jsonDumps (.jarr elems)) := by
  show ContainsSubstr (jsonDumps v) ("[" ++ jsonDumpsList elems ++ "]")
  exact containsSubstr_appendRight _
    (containsSubstr_appendLeft _ (containsSubstr_jsonDumpsList elems v h))

theorem containsSubstr_jsonDumpsFields : ∀ (fields : List (String × JValue))
    (k : String) (v : JValue), (k, v) ∈ fields →
    ContainsSubstr (jsonDumps v) (jsonDumpsFields fields) := by
  intro fields
  induction fields with
  | nil => intro k v h; cases h
  | cons e rest ih =>
    intro k v h
    obtain ⟨a, b⟩ := e
    match rest, ih with
    | [], _ =>
      rcases List.mem_cons.mp h with he | h
      · injection he with h1 h2
        subst h1; subst h2
        exact containsSubstr_appendLeft _ (containsSubstr_self _)
      · cases h
    | e2 :: r, ih =>
      rcases List.mem_cons.mp h with he | h
      · injection he with h1 h2
        subst h1; subst h2
        exact containsSubstr_appendRight _ (containsSubstr_appendRight _
          (containsSubstr_appendLeft _ (containsSubstr_self _)))
      · exact containsSubstr_appendLeft _ (ih k v h)

theorem containsSubstr_jsonDumps_obj {k : String} {v : JValue}
    {fields : List (String × JValue)} (h : fields.lookup k = some v) :
    ContainsSubstr (jsonDumps v) (jsonDumps (.jobj fields)) := by
  show ContainsSubstr (jsonDumps v) ("\x7b" ++ jsonDumpsFields fields ++ "\x7d")
  exact containsSubstr_appendRight _ (containsSubstr_appendLeft _
    (containsSubstr_jsonDumpsFields fields k v (lookup_mem h)))

theorem containsSubstr_jsonDumps_str (s : String) :
    ContainsSubstr (jsonEscapeString s) (jsonDumps (.jstr s)) := by
  show ContainsSubstr (jsonEscapeString s) ("\"" ++ jsonEscapeString s ++ "\"")
  exact containsSubstr_appendRight _ (containsSubstr_appendLeft _ (containsSubstr_self _))

theorem isAbsolutePath_append {cwd : String} (s : String)
    (h : isAbsolutePath cwd = true) : isAbsolutePath (cwd ++ s) = true := by
  unfold isAbsolutePath at h ⊢
  have h2 : cwd.data.head? = some '/' := eq_of_beq h
  rw [String.data_append]
  cases hd : cwd.data with
  | nil => rw [hd] at h2; cases h2
  | cons c rest =>
    rw [hd] at h2
    simp only [List.head?] at h2
    cases h2
    simp

theorem fsRead_fsWrite_ne (fs : FileSystem) (p c q : String) (h : q ≠ p) :
    fsRead (fsWrite fs p c) q = fsRead fs q := by
  unfold fsRead fsWrite
  induction fs with
  | nil =>
    simp only [List.filter_nil, List.nil_append]
    show List.lookup q [(p, c)] = List.lookup q []
    simp only [List.lookup]
    rw [show (q == p) = false from beq_eq_false_iff_ne.mpr h]
  | cons e rest ih =>
    obtain ⟨a, b⟩ := e
    by_cases hap : a = p
    · subst hap
      simp only [List.filter_cons, decide_eq_true_eq]
      rw [if_neg (by simp)]
      rw [ih]
      show _ = List.lookup q ((a, b) :: rest)
      simp only [List.lookup]
      have : (q == a) = false := by
        rw [beq_eq_false_iff_ne]
        exact h
      rw [this]
    · simp only [List.filter_cons, decide_eq_true_eq]
      rw [if_pos hap]
      show List.lookup q ((a, b) :: _) = List.lookup q ((a, b) :: rest)
      simp only [List.lookup]
      cases q == a
      · exact ih
      · rfl

theorem fsWrite_fsWrite (fs : FileSystem) (p c : String) :
    fsWrite (fsWrite fs p c) p c = fsWrite fs p c := by
  unfold fsWrite
  rw [List.filter_append]
  have h1 : List.filter (fun e => decide (e.1 ≠ p)) [((p : String), (c : String))] = [] := by
    simp
  rw [h1, List.append_nil, List.filter_filter]
  congr 1
  apply List.filter_congr
  intro e _
  simp

/-- The two suites of the spec's end-to-end scenario. -/
def suites243 : List Suite :=
  [Suite.mk "Login Suite" "Auth" 10 8 2, Suite.mk "Cart Suite" "Commerce" 5 5 0]

/-- A report document with the §3 shape, parametrised by the contents of the
three `majorFindings` sub-objects and the `testSuiteResults` array; the
remaining fields are the spec's end-to-end scenario values. -/
def mkReport (sec acc perf : List (String × JValue))
    (suiteVals : List JValue) : JValue :=
  .jobj [
    ("testExecutionSummary", .jobj [
      ("totalTests", .jnum 243), ("totalSuites", .jnum 12),
      ("totalPassed", .jnum 200), ("totalFailed", .jnum 43),
      ("successRate", .jstr "82.3%"),
      ("majorFindings", .jobj [
        ("securityIssues", .jobj sec),
        ("accessibilityIssues", .jobj acc),
        ("performanceIssues", .jobj perf)])]),
    ("failureAnalysis", .jobj [
      ("authenticationFailures", .jnum 25), ("functionalFailures", .jnum 18)]),
    ("testSuiteResults", .jarr suiteVals),
    ("comparisonWithPrevious", .jobj [
      ("previousTestCount", .jnum 13), ("newTestCount", .jnum 243)])]

/-- The `securityIssues` keys the template reads. -/
def secFull : List (String × JValue) :=
  [("sqlInjectionVulnerabilities", .jnum 3), ("missingSecurityHeaders", .jnum 5),
   ("sessionTokenIssues", .jnum 2)]

/-- The `accessibilityIssues` keys the template reads. -/
def accFull : List (String × JValue) :=
  [("colorContrastViolations", .jnum 7), ("unlabeledFormInputs", .jnum 4),
   ("ariaCompliance", .jstr "Partial")]

/-- The `performanceIssues` keys the template reads. -/
def perfFull : List (String × JValue) :=
  [("concurrentUserFailures", .jnum 6), ("clsScore", .jstr "0.25")]

/-- The end-to-end scenario document of §8. -/
def doc243 : JValue := mkReport secFull accFull perfFull (suites243.map Suite.toJ)

theorem specFirstSeen_subset : ∀ (l seen : List String) (c : String),
    c ∈ specFirstSeen seen l → c ∈ l := by
  intro l
  induction l with
  | nil => intro seen c h; cases h
  | cons d ds ih =>
    intro seen c h
    simp only [specFirstSeen] at h
    by_cases hd : d ∈ seen
    · rw [if_pos hd] at h
      exact List.mem_cons_of_mem _ (ih seen c h)
    · rw [if_neg hd] at h
      rcases List.mem_cons.mp h with rfl | h
      · exact List.mem_cons_self _ _
      · exact List.mem_cons_of_mem _ (ih _ c h)

theorem jsObjectKeys_of_no_index {entries : List (String × CatAcc)}
    (h : ∀ e ∈ entries, isArrayIndex e.1 = false) :
    jsObjectKeys entries = entries := by
  unfold jsObjectKeys
  have h1 : entries.filter (fun e => isArrayIndex e.1) = [] := by
    rw [List.filter_eq_nil_iff]
    intro e he
    simp [h e he]
  have h2 : entries.filter (fun e => !isArrayIndex e.1) = entries := by
    rw [List.filter_eq_self]
    intro e he
    simp [h e he]
  rw [h1, h2]
  rfl

/-- The claim's example suite set \x7bA: [tests=10,passed=5],
A: [tests=10,passed=5], B: [tests=4,passed=4]\x7d. -/
def exC1Suites : List Suite :=
  [Suite.mk "suite1" "A" 10 5 5, Suite.mk "suite2" "A" 10 5 5,
   Suite.mk "suite3" "B" 4 4 0]

/-- C1 counterexample: with suites in categories B then 3, the emitted
radar script's `Object.keys(categories)` enumerates the array-index-like
label 3 before B, so the axes are not in the claimed first-seen order
(which would be B then 3). -/
theorem claim_C1_counterexample :
    (categoryEntries
        [Suite.mk "suiteB" "B" 4 4 0, Suite.mk "suiteN" "3" 10 5 5]).map
      Prod.fst = ["3", "B"] ∧
    specFirstSeen []
        (([Suite.mk "suiteB" "B" 4 4 0,
           Suite.mk "suiteN" "3" 10 5 5]).map Suite.category) = ["B", "3"] ∧
    (["3", "B"] : List String) ≠ ["B", "3"] := by
  refine ⟨by decide, by decide, by decide⟩

/-- C1 as amended: for suites whose category labels are not
`Object.prototype` property names, the emitted radar script accumulates,
for each category, exactly the sum of `tests` and the sum of `passed` over
that category's suites, and enumerates the axes in JavaScript own-key
order — array-index-like labels first in ascending numeric order, then the
rest in first-seen order — which is plain first-seen order exactly when no
label is array-index-like.  The displayed value is `toFixed(1)` of the
rate computed in the viewer's double arithmetic, outside the embedding; on
the claim's example set that computation is exact and the script displays
50.0 for A and 100.0 for B. -/
theorem claim_C1_amended (suites : List Suite)
    (_hplain : ∀ s ∈ suites, s.category ∉ objectPrototypeKeys) :
    categoryEntries suites =
      jsObjectKeys ((specFirstSeen [] (suites.map Suite.category)).map
        (fun c => (c, CatAcc.mk (specSumTests suites c)
          (specSumPassed suites c)))) ∧
    ((∀ s ∈ suites, isArrayIndex s.category = false) →
      categoryEntries suites =
        (specFirstSeen [] (suites.map Suite.category)).map
          (fun c => (c, CatAcc.mk (specSumTests suites c)
            (specSumPassed suites c)))) ∧
    categoryData exC1Suites = [("A", "50.0"), ("B", "100.0")] := by
  refine ⟨?_, ?_, ?_⟩
  · rw [categoryEntries, buildCategories_spec]
  · intro hni
    rw [categoryEntries, buildCategories_spec]
    apply jsObjectKeys_of_no_index
    intro e he
    rcases List.mem_map.mp he with ⟨c, hc, rfl⟩
    obtain ⟨t, ht, rfl⟩ := List.mem_map.mp (specFirstSeen_subset _ _ _ hc)
    exact hni t ht
  · have h : categoryEntries exC1Suites =
        [("A", CatAcc.mk 20 10), ("B", CatAcc.mk 4 4)] := by decide
    rw [categoryData, h]
    norm_num [toFixed1]
    all_goals decide

theorem claim_C1_amended_witness :
    (∀ s ∈ exC1Suites, s.category ∉ objectPrototypeKeys) ∧
    (categoryEntries exC1Suites =
      jsObjectKeys ((specFirstSeen [] (exC1Suites.map Suite.category)).map
        (fun c => (c, CatAcc.mk (specSumTests exC1Suites c)
          (specSumPassed exC1Suites c)))) ∧
    ((∀ s ∈ exC1Suites, isArrayIndex s.category = false) →
      categoryEntries exC1Suites =
        (specFirstSeen [] (exC1Suites.map Suite.category)).map
          (fun c => (c, CatAcc.mk (specSumTests exC1Suites c)
            (specSumPassed exC1Suites c)))) ∧
    categoryData exC1Suites = [("A", "50.0"), ("B", "100.0")]) :=
  ⟨by decide, claim_C1_amended exC1Suites (by decide)⟩

theorem create_ok_shape (d : JValue) (out : String)
    (h : create_html_dashboard d = .ok out) :
    ∃ a1 a2 a3 a4 a5 a6 a7 a8 a9 a10 a11 a12 a13 a14 a15 a16 a17 a18,
      out = htmlTemplate a1 a2 a3 a4 a5 a6 a7 a8 a9 a10 a11 a12 a13 a14 a15 a16 a17 a18 := by
  unfold create_html_dashboard at h
  simp only [bind, Except.bind] at h
  iterate 26 (all_goals (try split at h))
  all_goals first
    | exact absurd h (by simp)
    | (simp only [pure, Except.pure, Except.ok.injEq] at h
       exact ⟨_, _, _, _, _, _, _, _, _, _, _, _, _, _, _, _, _, _, h.symm⟩)

set_option maxRecDepth 8000 in
/-- C10: fixed literals not derived from the input — the Coverage Improvement
figure 1,769%, the Missing values of the Rate Limiting and PWA Features rows,
the Failed value of the WCAG 2.1 AA Status row and the None value of the
Mobile Optimization row — appear verbatim in every successfully rendered
output, whatever the input document holds. -/
theorem claim_C10 (d : JValue) (out : String)
    (h : create_html_dashboard d = .ok out) :
    ContainsSubstr "<div class=\"stat-number info\">1,769%</div>" out ∧
    ContainsSubstr "Rate Limiting</span>\n                        <span class=\"finding-value\">Missing</span>" out ∧
    ContainsSubstr "PWA Features</span>\n                        <span class=\"finding-value\">Missing</span>" out ∧
    ContainsSubstr "WCAG 2.1 AA Status</span>\n                        <span class=\"finding-value\">Failed</span>" out ∧
    ContainsSubstr "Mobile Optimization</span>\n                        <span class=\"finding-value\">None</span>" out := by
  obtain ⟨a1, a2, a3, a4, a5, a6, a7, a8, a9, a10, a11, a12, a13, a14, a15, a16,
    a17, a18, rfl⟩ := create_ok_shape d out h
  rw [htmlTemplate]
  simp only [concatChunks]
  refine ⟨?_, ?_, ?_, ?_, ?_⟩
  · iterate 228 (apply containsSubstr_appendLeft)
    rw [← String.append_assoc]
    apply containsSubstr_appendRight
    exact containsSubstr_of_infixB (by decide)
  · iterate 275 (apply containsSubstr_appendLeft)
    rw [← String.append_assoc]
    apply containsSubstr_appendRight
    exact containsSubstr_of_infixB (by decide)
  · iterate 331 (apply containsSubstr_appendLeft)
    rw [← String.append_assoc]
    apply containsSubstr_appendRight
    exact containsSubstr_of_infixB (by decide)
  · iterate 309 (apply containsSubstr_appendLeft)
    rw [← String.append_assoc]
    apply containsSubstr_appendRight
    exact containsSubstr_of_infixB (by decide)
  · iterate 335 (apply containsSubstr_appendLeft)
    rw [← String.append_assoc]
    apply containsSubstr_appendRight
    exact containsSubstr_of_infixB (by decide)

/-- The f-string of the source applied to the end-to-end scenario document's
field values. -/
def renderedDoc243 : String :=
  htmlTemplate "243" "12" "200" "43" "82.3%" "3" "5" "2" "7" "4" "Partial"
    "6" "0.25" "13" "243" "25" "18" (jsonDumps (.jarr (suites243.map Suite.toJ)))

theorem claim_C10_witness :
    create_html_dashboard doc243 = .ok renderedDoc243 ∧
    (ContainsSubstr "<div class=\"stat-number info\">1,769%</div>" renderedDoc243 ∧
     ContainsSubstr "Rate Limiting</span>\n                        <span class=\"finding-value\">Missing</span>" renderedDoc243 ∧
     ContainsSubstr "PWA Features</span>\n                        <span class=\"finding-value\">Missing</span>" renderedDoc243 ∧
     ContainsSubstr "WCAG 2.1 AA Status</span>\n                        <span class=\"finding-value\">Failed</span>" renderedDoc243 ∧
     ContainsSubstr "Mobile Optimization</span>\n                        <span class=\"finding-value\">None</span>" renderedDoc243) :=
  ⟨by rfl, claim_C10 doc243 renderedDoc243 (by rfl)⟩

set_option maxRecDepth 8000 in
/-- C5: rendering is deterministic and idempotent: a second run of the
program over the file system the first run produced returns the identical
result and leaves the file system unchanged, so two runs on the same input
yield byte-identical output files; the only date in the template is the
fixed literal December 19, 2024, present in every successful render. -/
theorem claim_C5 (parse : String → Option JValue) (fs : FileSystem) :
    dashboardRun parse ((dashboardRun parse fs).1) = dashboardRun parse fs ∧
    (∀ d out, create_html_dashboard d = .ok out →
      ContainsSubstr "Generated by JIRA UAT Comprehensive Testing Suite | December 19, 2024" out) := by
  constructor
  · unfold dashboardRun
    cases hr : fsRead fs inputPath with
    | none => simp [hr]
    | some content =>
      cases hp : parse content with
      | none => simp [hr, hp]
      | some d =>
        cases hc : create_html_dashboard d with
        | error e => simp [hr, hp, hc]
        | ok html =>
          simp only [hr, hp, hc]
          rw [fsRead_fsWrite_ne fs outputPath html inputPath (by decide)]
          rw [hr]
          simp only [hp, hc]
          rw [fsWrite_fsWrite]
  · intro d out h
    obtain ⟨a1, a2, a3, a4, a5, a6, a7, a8, a9, a10, a11, a12, a13, a14, a15, a16,
      a17, a18, rfl⟩ := create_ok_shape d out h
    rw [htmlTemplate]
    simp only [concatChunks]
    iterate 351 (apply containsSubstr_appendLeft)
    rw [← String.append_assoc]
    apply containsSubstr_appendRight
    exact containsSubstr_of_infixB (by decide)

theorem claim_C5_witness :
    dashboardRun (fun _ => some doc243)
        ((dashboardRun (fun _ => some doc243) [(inputPath, "report")]).1) =
      dashboardRun (fun _ => some doc243) [(inputPath, "report")] ∧
    (create_html_dashboard doc243 = .ok renderedDoc243 ∧
     ContainsSubstr "Generated by JIRA UAT Comprehensive Testing Suite | December 19, 2024" renderedDoc243) :=
  ⟨(claim_C5 (fun _ => some doc243) [(inputPath, "report")]).1,
   ⟨by rfl, (claim_C5 (fun _ => some doc243) [(inputPath, "report")]).2 doc243
      renderedDoc243 (by rfl)⟩⟩

/-- C6: when the input file's content does not parse as structured data,
the run stops with a Malformed Input error before anything is rendered:
the returned file system is the one it started from, so no output was
produced; the run's structure is strictly load, then render, then write. -/
theorem claim_C6 (parse : String → Option JValue) (fs : FileSystem)
    (content : String) (hread : fsRead fs inputPath = some content)
    (hparse : parse content = none) :
    dashboardRun parse fs = (fs, .error .malformedInput) := by
  unfold dashboardRun
  rw [hread]
  simp only [hparse]

theorem claim_C6_witness :
    dashboardRun (fun _ => none) [(inputPath, "\x7bnot valid json")] =
      ([(inputPath, "\x7bnot valid json")], .error .malformedInput) :=
  claim_C6 (fun _ => none) [(inputPath, "\x7bnot valid json")]
    "\x7bnot valid json" (by rfl) (by rfl)

/-- A document that lacks the key path `testExecutionSummary.totalTests`:
either the top level has no `testExecutionSummary`, or that value is an
object without `totalTests`. -/
def lacksSummaryTotalTests (d : JValue) : Bool :=
  match d with
  | .jobj fields =>
    match fields.lookup "testExecutionSummary" with
    | none => true
    | some (.jobj s) => (s.lookup "totalTests").isNone
    | some _ => false
  | _ => false

/-- C3: on an input document lacking `testExecutionSummary.totalTests`, the
run fails with a missing-field error naming the key at which the lookup
failed, and the file system is returned unchanged: the error is raised while
the f-string is evaluated, before the output path is opened. -/
theorem claim_C3 (parse : String → Option JValue) (fs : FileSystem)
    (content : String) (d : JValue)
    (hread : fsRead fs inputPath = some content)
    (hparse : parse content = some d)
    (hmiss : lacksSummaryTotalTests d = true) :
    ∃ k, dashboardRun parse fs = (fs, .error (.missingField k)) ∧
      (k = "testExecutionSummary" ∨ k = "totalTests") := by
  unfold dashboardRun
  rw [hread]
  simp only [hparse]
  cases d with
  | jnum n => exact absurd hmiss (by simp [lacksSummaryTotalTests])
  | jstr s => exact absurd hmiss (by simp [lacksSummaryTotalTests])
  | jarr elems => exact absurd hmiss (by simp [lacksSummaryTotalTests])
  | jobj fields =>
    simp only [lacksSummaryTotalTests] at hmiss
    cases hlook : fields.lookup "testExecutionSummary" with
    | none =>
      refine ⟨"testExecutionSummary", ?_, Or.inl rfl⟩
      have hcreate : create_html_dashboard (.jobj fields) =
          .error (.missingField "testExecutionSummary") := by
        unfold create_html_dashboard
        simp [JValue.pylookup, hlook, bind, Except.bind]
      simp only [hcreate]
    | some v =>
      rw [hlook] at hmiss
      cases v with
      | jnum n => exact absurd hmiss (by simp)
      | jstr s => exact absurd hmiss (by simp)
      | jarr elems => exact absurd hmiss (by simp)
      | jobj s =>
        simp only [Option.isNone_iff_eq_none] at hmiss
        refine ⟨"totalTests", ?_, Or.inr rfl⟩
        have hcreate : create_html_dashboard (.jobj fields) =
            .error (.missingField "totalTests") := by
          unfold create_html_dashboard
          simp [JValue.pylookup, hlook, hmiss, bind, Except.bind]
        simp only [hcreate]

theorem claim_C3_witness :
    ∃ k, dashboardRun (fun _ => some (.jobj [("testExecutionSummary",
        .jobj [("totalSuites", .jnum 12)])])) [(inputPath, "report")] =
      ([(inputPath, "report")], .error (.missingField k)) ∧
      (k = "testExecutionSummary" ∨ k = "totalTests") :=
  claim_C3 (fun _ => some (.jobj [("testExecutionSummary",
      .jobj [("totalSuites", .jnum 12)])])) [(inputPath, "report")]
    "report" (.jobj [("testExecutionSummary", .jobj [("totalSuites", .jnum 12)])])
    (by rfl) (by rfl) (by rfl)

/-- C7 counterexample: a successful run returns the fixed file name
`jira-test-dashboard.html`, which is a relative path, not the absolute
location of the written file. -/
theorem claim_C7_counterexample :
    (dashboardRun (fun _ => some doc243) [(inputPath, "report")]).2 =
      .ok "jira-test-dashboard.html" ∧
    isAbsolutePath "jira-test-dashboard.html" = false :=
  ⟨by rfl, by rfl⟩

/-- C7 as amended: every successful run returns the fixed relative file name
`jira-test-dashboard.html`; `main` then resolves it against the working
directory with `os.path.abspath` and communicates that resolved location,
which is absolute whenever the working directory is. -/
theorem claim_C7_amended (parse : String → Option JValue)
    (fs fs2 : FileSystem) (r : String)
    (h : dashboardRun parse fs = (fs2, .ok r)) :
    r = "jira-test-dashboard.html" ∧
    ∀ cwd, isAbsolutePath cwd = true →
      mainCommunicatedPath cwd r = cwd ++ "/" ++ "jira-test-dashboard.html" ∧
      isAbsolutePath (mainCommunicatedPath cwd r) = true := by
  have hr : r = "jira-test-dashboard.html" := by
    unfold dashboardRun at h
    iterate 3 (all_goals (try split at h))
    all_goals (injection h with h1 h2)
    all_goals try (cases h2)
    all_goals rfl
  subst hr
  refine ⟨rfl, ?_⟩
  intro cwd hcwd
  have habs : isAbsolutePath "jira-test-dashboard.html" = false := by rfl
  constructor
  · show os_path_abspath cwd "jira-test-dashboard.html" = _
    unfold os_path_abspath
    rw [habs]
    simp
  · show isAbsolutePath (os_path_abspath cwd "jira-test-dashboard.html") = true
    unfold os_path_abspath
    rw [habs]
    simp only [Bool.false_eq_true, if_false]
    exact isAbsolutePath_append _ (isAbsolutePath_append _ hcwd)

theorem claim_C7_amended_witness :
    "jira-test-dashboard.html" = "jira-test-dashboard.html" ∧
    ∀ cwd, isAbsolutePath cwd = true →
      mainCommunicatedPath cwd "jira-test-dashboard.html" =
        cwd ++ "/" ++ "jira-test-dashboard.html" ∧
      isAbsolutePath (mainCommunicatedPath cwd "jira-test-dashboard.html") = true :=
  claim_C7_amended (fun _ => some doc243) [(inputPath, "report")]
    ((dashboardRun (fun _ => some doc243) [(inputPath, "report")]).1)
    "jira-test-dashboard.html" (by rfl)

/-- C9: the rendered output depends only on the values of the four top-level
keys `testExecutionSummary`, `failureAnalysis`, `testSuiteResults` and
`comparisonWithPrevious`: two documents whose lookups of those keys agree
render identically, so adding, removing or changing any other top-level key
never changes the output. -/
theorem claim_C9 (d1 d2 : JValue)
    (h1 : d1.pylookup "testExecutionSummary" = d2.pylookup "testExecutionSummary")
    (h2 : d1.pylookup "failureAnalysis" = d2.pylookup "failureAnalysis")
    (h3 : d1.pylookup "testSuiteResults" = d2.pylookup "testSuiteResults")
    (h4 : d1.pylookup "comparisonWithPrevious" = d2.pylookup "comparisonWithPrevious") :
    create_html_dashboard d1 = create_html_dashboard d2 := by
  unfold create_html_dashboard
  rw [h1, h2, h3, h4]

/-- The scenario document with an extra, unreferenced top-level key. -/
def doc243Extra : JValue :=
  match doc243 with
  | .jobj fields => .jobj (fields ++ [("unreferencedKey", .jstr "ignored")])
  | v => v

theorem claim_C9_witness :
    (doc243.pylookup "testExecutionSummary" = doc243Extra.pylookup "testExecutionSummary" ∧
     doc243.pylookup "failureAnalysis" = doc243Extra.pylookup "failureAnalysis" ∧
     doc243.pylookup "testSuiteResults" = doc243Extra.pylookup "testSuiteResults" ∧
     doc243.pylookup "comparisonWithPrevious" = doc243Extra.pylookup "comparisonWithPrevious") ∧
    create_html_dashboard doc243 = create_html_dashboard doc243Extra :=
  ⟨⟨by rfl, by rfl, by rfl, by rfl⟩,
   claim_C9 doc243 doc243Extra (by rfl) (by rfl) (by rfl) (by rfl)⟩

/-- C8: the template requires exactly these eight sub-keys of
`testExecutionSummary.majorFindings`: a document whose three findings
sub-objects carry only the eight listed keys renders successfully, and
removing any one of the eight makes rendering fail with the missing-key
lookup error naming it. -/
theorem claim_C8 :
    (create_html_dashboard (mkReport secFull accFull perfFull (suites243.map Suite.toJ))).isOk = true ∧
    create_html_dashboard (mkReport
        [("missingSecurityHeaders", .jnum 5), ("sessionTokenIssues", .jnum 2)]
        accFull perfFull (suites243.map Suite.toJ)) = .error (.missingField "sqlInjectionVulnerabilities") ∧
    create_html_dashboard (mkReport
        [("sqlInjectionVulnerabilities", .jnum 3), ("sessionTokenIssues", .jnum 2)]
        accFull perfFull (suites243.map Suite.toJ)) = .error (.missingField "missingSecurityHeaders") ∧
    create_html_dashboard (mkReport
        [("sqlInjectionVulnerabilities", .jnum 3), ("missingSecurityHeaders", .jnum 5)]
        accFull perfFull (suites243.map Suite.toJ)) = .error (.missingField "sessionTokenIssues") ∧
    create_html_dashboard (mkReport secFull
        [("unlabeledFormInputs", .jnum 4), ("ariaCompliance", .jstr "Partial")]
        perfFull (suites243.map Suite.toJ)) = .error (.missingField "colorContrastViolations") ∧
    create_html_dashboard (mkReport secFull
        [("colorContrastViolations", .jnum 7), ("ariaCompliance", .jstr "Partial")]
        perfFull (suites243.map Suite.toJ)) = .error (.missingField "unlabeledFormInputs") ∧
    create_html_dashboard (mkReport secFull
        [("colorContrastViolations", .jnum 7), ("unlabeledFormInputs", .jnum 4)]
        perfFull (suites243.map Suite.toJ)) = .error (.missingField "ariaCompliance") ∧
    create_html_dashboard (mkReport secFull accFull
        [("clsScore", .jstr "0.25")] (suites243.map Suite.toJ)) = .error (.missingField "concurrentUserFailures") ∧
    create_html_dashboard (mkReport secFull accFull
        [("concurrentUserFailures", .jnum 6)] (suites243.map Suite.toJ)) = .error (.missingField "clsScore") :=
  ⟨by rfl, by rfl, by rfl, by rfl, by rfl, by rfl, by rfl, by rfl, by rfl⟩

set_option maxRecDepth 8000 in
/-- C4: on the end-to-end scenario document (totalTests 243, totalPassed 200,
totalFailed 43, successRate 82.3%, suites Login Suite/Auth/10/8/2 and
Cart Suite/Commerce/5/5/0), rendering succeeds and the output contains 243,
200, 43 and 82.3%; the emitted bar-chart script labels the suites
Login... and Cart... (first space-delimited token of the name plus an
ellipsis marker), and the emitted radar script derives 80.0 for Auth and
100.0 for Commerce. -/
theorem claim_C4 :
    create_html_dashboard doc243 = .ok renderedDoc243 ∧
    ContainsSubstr "243" renderedDoc243 ∧
    ContainsSubstr "200" renderedDoc243 ∧
    ContainsSubstr "43" renderedDoc243 ∧
    ContainsSubstr "82.3%" renderedDoc243 ∧
    barLabels suites243 = ["Login...", "Cart..."] ∧
    categoryData suites243 = [("Auth", "80.0"), ("Commerce", "100.0")] := by
  refine ⟨by rfl, ?_, ?_, ?_, ?_, by decide, ?_⟩
  · rw [renderedDoc243, htmlTemplate]
    exact containsSubstr_of_mem_chunks (by decide)
  · rw [renderedDoc243, htmlTemplate]
    exact containsSubstr_of_mem_chunks (by decide)
  · rw [renderedDoc243, htmlTemplate]
    exact containsSubstr_of_mem_chunks (by decide)
  · rw [renderedDoc243, htmlTemplate]
    exact containsSubstr_of_mem_chunks (by decide)
  · have h : categoryEntries suites243 =
        [("Auth", CatAcc.mk 10 8), ("Commerce", CatAcc.mk 5 5)] := by decide
    rw [categoryData, h]
    norm_num [toFixed1]
    all_goals decide

/-- A §3-schema suite entry: an object carrying string `name` and `category`
and integer `tests`, `passed` and `failed`. -/
def ValidSuite (v : JValue) : Prop :=
  (∃ s, v.pylookup "name" = .ok (.jstr s)) ∧
  (∃ s, v.pylookup "category" = .ok (.jstr s)) ∧
  (∃ n : Int, v.pylookup "tests" = .ok (.jnum n)) ∧
  (∃ n : Int, v.pylookup "passed" = .ok (.jnum n)) ∧
  (∃ n : Int, v.pylookup "failed" = .ok (.jnum n))

/-- A §3-schema report document: the four top-level sections with the typed
fields the template references; §3 leaves the shapes inside the three
`majorFindings` sub-objects open, so their eight referenced keys may hold
any value. -/
def ValidReport (d : JValue) : Prop :=
  (∃ s, d.pylookup "testExecutionSummary" = .ok s ∧
    (∃ n : Int, s.pylookup "totalTests" = .ok (.jnum n)) ∧
    (∃ n : Int, s.pylookup "totalSuites" = .ok (.jnum n)) ∧
    (∃ n : Int, s.pylookup "totalPassed" = .ok (.jnum n)) ∧
    (∃ n : Int, s.pylookup "totalFailed" = .ok (.jnum n)) ∧
    (∃ r, s.pylookup "successRate" = .ok (.jstr r)) ∧
    (∃ m, s.pylookup "majorFindings" = .ok m ∧
      (∃ i, m.pylookup "securityIssues" = .ok i ∧
        (∃ w, i.pylookup "sqlInjectionVulnerabilities" = .ok w) ∧
        (∃ w, i.pylookup "missingSecurityHeaders" = .ok w) ∧
        (∃ w, i.pylookup "sessionTokenIssues" = .ok w)) ∧
      (∃ i, m.pylookup "accessibilityIssues" = .ok i ∧
        (∃ w, i.pylookup "colorContrastViolations" = .ok w) ∧
        (∃ w, i.pylookup "unlabeledFormInputs" = .ok w) ∧
        (∃ w, i.pylookup "ariaCompliance" = .ok w)) ∧
      (∃ i, m.pylookup "performanceIssues" = .ok i ∧
        (∃ w, i.pylookup "concurrentUserFailures" = .ok w) ∧
        (∃ w, i.pylookup "clsScore" = .ok w)))) ∧
  (∃ f, d.pylookup "failureAnalysis" = .ok f ∧
    (∃ n : Int, f.pylookup "authenticationFailures" = .ok (.jnum n)) ∧
    (∃ n : Int, f.pylookup "functionalFailures" = .ok (.jnum n))) ∧
  (∃ c, d.pylookup "comparisonWithPrevious" = .ok c ∧
    (∃ n : Int, c.pylookup "previousTestCount" = .ok (.jnum n)) ∧
    (∃ n : Int, c.pylookup "newTestCount" = .ok (.jnum n))) ∧
  (∃ suites, d.pylookup "testSuiteResults" = .ok (.jarr suites) ∧
    ∀ v ∈ suites, ValidSuite v)

theorem validSuite_toJ (s : Suite) : ValidSuite s.toJ :=
  ⟨⟨s.name, rfl⟩, ⟨s.category, rfl⟩, ⟨s.tests, rfl⟩, ⟨s.passed, rfl⟩,
    ⟨s.failed, rfl⟩⟩

theorem validReport_mkReport (suiteVals : List JValue)
    (h : ∀ v ∈ suiteVals, ValidSuite v) :
    ValidReport (mkReport secFull accFull perfFull suiteVals) :=
  ⟨⟨_, rfl, ⟨243, rfl⟩, ⟨12, rfl⟩, ⟨200, rfl⟩, ⟨43, rfl⟩, ⟨"82.3%", rfl⟩,
    ⟨_, rfl,
      ⟨_, rfl, ⟨.jnum 3, rfl⟩, ⟨.jnum 5, rfl⟩, ⟨.jnum 2, rfl⟩⟩,
      ⟨_, rfl, ⟨.jnum 7, rfl⟩, ⟨.jnum 4, rfl⟩, ⟨.jstr "Partial", rfl⟩⟩,
      ⟨_, rfl, ⟨.jnum 6, rfl⟩, ⟨.jstr "0.25", rfl⟩⟩⟩⟩,
   ⟨_, rfl, ⟨25, rfl⟩, ⟨18, rfl⟩⟩,
   ⟨_, rfl, ⟨13, rfl⟩, ⟨243, rfl⟩⟩,
   ⟨suiteVals, rfl, h⟩⟩

theorem contains_field_dump {v : JValue} {suites : List JValue} {k : String}
    {w : JValue} (hmem : v ∈ suites) (hl : v.pylookup k = .ok w) :
    ContainsSubstr (jsonDumps w) (jsonDumps (.jarr suites)) := by
  cases v with
  | jobj vf =>
    simp only [JValue.pylookup] at hl
    cases hlk : vf.lookup k with
    | none => rw [hlk] at hl; cases hl
    | some x =>
      rw [hlk] at hl
      cases hl
      exact containsSubstr_trans (containsSubstr_jsonDumps_obj hlk)
        (containsSubstr_jsonDumps_arr hmem)
  | jnum n => exact absurd hl (by simp [JValue.pylookup])
  | jstr s => exact absurd hl (by simp [JValue.pylookup])
  | jarr l => exact absurd hl (by simp [JValue.pylookup])

/-- What C2 can promise of a document's rendering once the JSON escaping of
the suite dump is accounted for: rendering succeeds; the §3 numeric fields
and `successRate` appear verbatim; each suite's `tests`, `passed` and
`failed` appear verbatim inside the dumped suite array; each suite's `name`
and `category` appear in JSON-escaped form, hence verbatim exactly when the
escaping leaves them unchanged. -/
def VerbatimFieldsRendered (d : JValue) : Prop :=
  ∃ out, create_html_dashboard d = .ok out ∧
    (∀ s n, d.pylookup "testExecutionSummary" = .ok s →
      (s.pylookup "totalTests" = .ok (.jnum n) ∨
       s.pylookup "totalSuites" = .ok (.jnum n) ∨
       s.pylookup "totalPassed" = .ok (.jnum n) ∨
       s.pylookup "totalFailed" = .ok (.jnum n)) →
      ContainsSubstr (toString n) out) ∧
    (∀ s r, d.pylookup "testExecutionSummary" = .ok s →
      s.pylookup "successRate" = .ok (.jstr r) → ContainsSubstr r out) ∧
    (∀ f n, d.pylookup "failureAnalysis" = .ok f →
      (f.pylookup "authenticationFailures" = .ok (.jnum n) ∨
       f.pylookup "functionalFailures" = .ok (.jnum n)) →
      ContainsSubstr (toString n) out) ∧
    (∀ c n, d.pylookup "comparisonWithPrevious" = .ok c →
      (c.pylookup "previousTestCount" = .ok (.jnum n) ∨
       c.pylookup "newTestCount" = .ok (.jnum n)) →
      ContainsSubstr (toString n) out) ∧
    (∀ suites v, d.pylookup "testSuiteResults" = .ok (.jarr suites) →
      v ∈ suites →
      (∀ n : Int, (v.pylookup "tests" = .ok (.jnum n) ∨
         v.pylookup "passed" = .ok (.jnum n) ∨
         v.pylookup "failed" = .ok (.jnum n)) →
        ContainsSubstr (toString n) out) ∧
      (∀ str, (v.pylookup "name" = .ok (.jstr str) ∨
         v.pylookup "category" = .ok (.jstr str)) →
        ContainsSubstr (jsonEscapeString str) out ∧
        (jsonEscapeString str = str → ContainsSubstr str out)))

set_option maxRecDepth 8000 in
/-- C2 as amended: for every §3-valid document rendering succeeds, and every
numeric field of §3 and the `successRate` string appear verbatim in the
output; the suite-level integers appear verbatim inside the dumped suite
array; the suite `name` and `category` strings pass through `json.dumps`
escaping, so they appear escaped, and verbatim exactly when escaping leaves
them unchanged. -/
theorem claim_C2_amended (d : JValue) (hv : ValidReport d) :
    VerbatimFieldsRendered d := by
  obtain ⟨⟨s, hs, ⟨t1, h1⟩, ⟨t2, h2⟩, ⟨t3, h3⟩, ⟨t4, h4⟩, ⟨sr, h5⟩,
      m, hm, ⟨i1, hi1, ⟨w1, hw1⟩, ⟨w2, hw2⟩, ⟨w3, hw3⟩⟩,
      ⟨i2, hi2, ⟨w4, hw4⟩, ⟨w5, hw5⟩, ⟨w6, hw6⟩⟩,
      ⟨i3, hi3, ⟨w7, hw7⟩, ⟨w8, hw8⟩⟩⟩,
    ⟨f, hf, ⟨u1, hu1⟩, ⟨u2, hu2⟩⟩,
    ⟨cp, hcp, ⟨p1, hp1⟩, ⟨p2, hp2⟩⟩,
    suites, hsu, hvs⟩ := hv
  have hok : create_html_dashboard d = .ok (htmlTemplate
      (pyStr (.jnum t1)) (pyStr (.jnum t2)) (pyStr (.jnum t3)) (pyStr (.jnum t4))
      (pyStr (.jstr sr)) (pyStr w1) (pyStr w2) (pyStr w3) (pyStr w4) (pyStr w5)
      (pyStr w6) (pyStr w7) (pyStr w8) (pyStr (.jnum p1)) (pyStr (.jnum p2))
      (pyStr (.jnum u1)) (pyStr (.jnum u2)) (jsonDumps (.jarr suites))) := by
    simp only [create_html_dashboard, bind, Except.bind, hs, h1, h2, h3, h4, h5,
      hm, hi1, hw1, hw2, hw3, hi2, hw4, hw5, hw6, hi3, hw7, hw8, hcp, hp1, hp2,
      hf, hu1, hu2, hsu, pure]
    rfl
  refine ⟨_, hok, ?_, ?_, ?_, ?_, ?_⟩
  · intro s' n hs' hd
    rw [hs] at hs'
    cases hs'
    rcases hd with hx | hx | hx | hx
    · rw [h1] at hx
      cases hx
      rw [htmlTemplate]
      apply containsSubstr_of_mem_chunks
      iterate 189 (apply List.mem_cons_of_mem)
      exact List.mem_cons_self _ _
    · rw [h2] at hx
      cases hx
      rw [htmlTemplate]
      apply containsSubstr_of_mem_chunks
      iterate 191 (apply List.mem_cons_of_mem)
      exact List.mem_cons_self _ _
    · rw [h3] at hx
      cases hx
      rw [htmlTemplate]
      apply containsSubstr_of_mem_chunks
      iterate 206 (apply List.mem_cons_of_mem)
      exact List.mem_cons_self _ _
    · rw [h4] at hx
      cases hx
      rw [htmlTemplate]
      apply containsSubstr_of_mem_chunks
      iterate 212 (apply List.mem_cons_of_mem)
      exact List.mem_cons_self _ _
  · intro s' r hs' hx
    rw [hs] at hs'
    cases hs'
    rw [h5] at hx
    cases hx
    rw [htmlTemplate]
    apply containsSubstr_of_mem_chunks
    iterate 218 (apply List.mem_cons_of_mem)
    exact List.mem_cons_self _ _
  · intro f' n hf' hd
    rw [hf] at hf'
    cases hf'
    rcases hd with hx | hx
    · rw [hu1] at hx
      cases hx
      rw [htmlTemplate]
      apply containsSubstr_of_mem_chunks
      iterate 391 (apply List.mem_cons_of_mem)
      exact List.mem_cons_self _ _
    · rw [hu2] at hx
      cases hx
      rw [htmlTemplate]
      apply containsSubstr_of_mem_chunks
      iterate 393 (apply List.mem_cons_of_mem)
      exact List.mem_cons_self _ _
  · intro cp' n hcp' hd
    rw [hcp] at hcp'
    cases hcp'
    rcases hd with hx | hx
    · rw [hp1] at hx
      cases hx
      rw [htmlTemplate]
      apply containsSubstr_of_mem_chunks
      iterate 344 (apply List.mem_cons_of_mem)
      exact List.mem_cons_self _ _
    · rw [hp2] at hx
      cases hx
      rw [htmlTemplate]
      apply containsSubstr_of_mem_chunks
      iterate 346 (apply List.mem_cons_of_mem)
      exact List.mem_cons_self _ _
  · intro suites' v hsu' hv'
    rw [hsu] at hsu'
    cases hsu'
    constructor
    · intro n hd
      have hfd : ContainsSubstr (jsonDumps (.jnum n)) (jsonDumps (.jarr suites)) := by
        rcases hd with hx | hx | hx
        · exact contains_field_dump hv' hx
        · exact contains_field_dump hv' hx
        · exact contains_field_dump hv' hx
      refine containsSubstr_trans hfd ?_
      rw [htmlTemplate]
      apply containsSubstr_of_mem_chunks
      iterate 412 (apply List.mem_cons_of_mem)
      exact List.mem_cons_self _ _
    · intro str hd
      have hfd : ContainsSubstr (jsonDumps (.jstr str)) (jsonDumps (.jarr suites)) := by
        rcases hd with hx | hx
        · exact contains_field_dump hv' hx
        · exact contains_field_dump hv' hx
      have hout : ContainsSubstr (jsonEscapeString str) (htmlTemplate
          (pyStr (.jnum t1)) (pyStr (.jnum t2)) (pyStr (.jnum t3)) (pyStr (.jnum t4))
          (pyStr (.jstr sr)) (pyStr w1) (pyStr w2) (pyStr w3) (pyStr w4) (pyStr w5)
          (pyStr w6) (pyStr w7) (pyStr w8) (pyStr (.jnum p1)) (pyStr (.jnum p2))
          (pyStr (.jnum u1)) (pyStr (.jnum u2)) (jsonDumps (.jarr suites))) := by
        refine containsSubstr_trans
          (containsSubstr_trans (containsSubstr_jsonDumps_str str) hfd) ?_
        rw [htmlTemplate]
        apply containsSubstr_of_mem_chunks
        iterate 412 (apply List.mem_cons_of_mem)
        exact List.mem_cons_self _ _
      refine ⟨hout, ?_⟩
      intro hid
      rw [← hid]
      exact hout

/-- A suite whose name is a single non-ASCII character. -/
def suiteOmega : Suite := ⟨"Ω", "C", 1, 1, 0⟩

/-- A §3-valid document whose one suite is named `Ω`. -/
def docOmega : JValue := mkReport secFull accFull perfFull [suiteOmega.toJ]

/-- The f-string applied to `docOmega`'s field values. -/
def renderedDocOmega : String :=
  htmlTemplate "243" "12" "200" "43" "82.3%" "3" "5" "2" "7" "4" "Partial"
    "6" "0.25" "13" "243" "25" "18" (jsonDumps (.jarr [suiteOmega.toJ]))

set_option maxRecDepth 8000 in
/-- C2 counterexample: a §3-valid document whose suite name is the string Ω
renders successfully, yet the name does not appear verbatim anywhere in the
output — `json.dumps` (default `ensure_ascii`) emits it as the six-character
escape backslash-u-0-3-a-9, so the claim's unqualified field fidelity fails
for string fields of the suite array. -/
theorem claim_C2_counterexample :
    ValidReport docOmega ∧
    create_html_dashboard docOmega = .ok renderedDocOmega ∧
    (Suite.toJ suiteOmega).pylookup "name" = .ok (.jstr "Ω") ∧
    docOmega.pylookup "testSuiteResults" = .ok (.jarr [suiteOmega.toJ]) ∧
    ¬ ContainsSubstr "Ω" renderedDocOmega := by
  refine ⟨validReport_mkReport _ ?_, by rfl, by rfl, by rfl, ?_⟩
  · intro v hv
    rw [List.mem_singleton.mp hv]
    exact validSuite_toJ suiteOmega
  · intro H
    have h2 := containsSubstr_char_mem H 'Ω' (by decide)
    revert h2
    rw [renderedDocOmega, htmlTemplate]
    exact char_notMem_concatChunks (by decide)

theorem claim_C2_witness :
    ValidReport doc243 ∧ VerbatimFieldsRendered doc243 := by
  have hv : ValidReport doc243 := by
    apply validReport_mkReport
    intro v hv
    rcases List.mem_map.mp hv with ⟨s, _, rfl⟩
    exact validSuite_toJ s
  exact ⟨hv, claim_C2_amended doc243 hv⟩
